import Mathlib

/-!
# Staged bring-up and teardown of the Mali job-manager device backend

A shallow embedding of `device/backend/mali_kbase_device_jm.c`:
the stage table `dev_init`, `kbase_device_term_partial`, `kbase_device_term`,
`kbase_device_init`, and the late backend stage `kbase_backend_late_init` with
`kbase_backend_late_term`.

The functions called through the table, the kernel services (`kthread_run`,
`sched_setscheduler`, `dev_err`, ...) and the two halts are external to the
file.  Every external call is recorded, in program order, in a call trace
(`List Call`), and what an external call returns is read from an `Outcomes`
record.  The functions of the file take the trace of the calls made so far and
return it extended; they never inspect it, as the C code keeps no record of
which stages are up.
-/

/-- Preprocessor switches that select the entries of `dev_init`. -/
structure Config where
  CONFIG_MALI_NO_MALI : Bool
  MALI_KBASE_BUILD : Bool
  CONFIG_MALI_BUSLOG : Bool
  deriving DecidableEq, Repr

/-- The record `struct kbase_device_init` of the stage table, as the initialisers of
`dev_init` and the accesses `.init`, `.term`, `.err_mes` use it.  A function pointer is
the name of the function it points to, `none` is `NULL`. -/
structure struct_kbase_device_init where
  init : Option String
  term : Option String
  err_mes : String
  deriving DecidableEq, Repr

/-- The table `dev_init[]`, for each choice of the preprocessor switches. -/
def dev_init (cfg : Config) : List struct_kbase_device_init :=
  (if cfg.CONFIG_MALI_NO_MALI then
    [⟨some "kbase_gpu_device_create", some "kbase_gpu_device_destroy",
        "Dummy model initialization failed"⟩]
  else
    [⟨some "assign_irqs", none, "IRQ search failed"⟩,
     ⟨some "registers_map", some "registers_unmap", "Register map failed"⟩]) ++
  [⟨some "kbase_device_io_history_init", some "kbase_device_io_history_term",
      "Register access history initialization failed"⟩,
   ⟨some "kbase_device_pm_init", some "kbase_device_pm_term",
      "Power management initialization failed"⟩,
   ⟨some "kbase_device_early_init", some "kbase_device_early_term",
      "Early device initialization failed"⟩,
   ⟨some "kbase_device_populate_max_freq", none,
      "Populating max frequency failed"⟩,
   ⟨some "kbase_device_misc_init", some "kbase_device_misc_term",
      "Miscellaneous device initialization failed"⟩,
   ⟨some "kbase_ctx_sched_init", some "kbase_ctx_sched_term",
      "Context scheduler initialization failed"⟩,
   ⟨some "kbase_mem_init", some "kbase_mem_term",
      "Memory subsystem initialization failed"⟩,
   ⟨some "kbase_device_coherency_init", none,
      "Device coherency init failed"⟩,
   ⟨some "kbase_protected_mode_init", some "kbase_protected_mode_term",
      "Protected mode subsystem initialization failed"⟩,
   ⟨some "kbase_device_list_init", some "kbase_device_list_term",
      "Device list setup failed"⟩,
   ⟨some "kbasep_js_devdata_init", some "kbasep_js_devdata_term",
      "Job JS devdata initialization failed"⟩,
   ⟨some "kbase_device_timeline_init", some "kbase_device_timeline_term",
      "Timeline stream initialization failed"⟩,
   ⟨some "kbase_clk_rate_trace_manager_init", some "kbase_clk_rate_trace_manager_term",
      "Clock rate trace manager initialization failed"⟩,
   ⟨some "kbase_device_hwcnt_backend_jm_init", some "kbase_device_hwcnt_backend_jm_term",
      "GPU hwcnt backend creation failed"⟩,
   ⟨some "kbase_device_hwcnt_context_init", some "kbase_device_hwcnt_context_term",
      "GPU hwcnt context initialization failed"⟩,
   ⟨some "kbase_device_hwcnt_virtualizer_init", some "kbase_device_hwcnt_virtualizer_term",
      "GPU hwcnt virtualizer initialization failed"⟩,
   ⟨some "kbase_device_vinstr_init", some "kbase_device_vinstr_term",
      "Virtual instrumentation initialization failed"⟩,
   ⟨some "kbase_backend_late_init", some "kbase_backend_late_term",
      "Late backend initialization failed"⟩] ++
  (if cfg.MALI_KBASE_BUILD then
    [⟨some "kbase_debug_job_fault_dev_init", some "kbase_debug_job_fault_dev_term",
        "Job fault debug initialization failed"⟩,
     ⟨some "kbase_device_debugfs_init", some "kbase_device_debugfs_term",
        "DebugFS initialization failed"⟩,
     ⟨some "kbase_sysfs_init", some "kbase_sysfs_term", "SysFS group creation failed"⟩,
     ⟨some "kbase_device_misc_register", some "kbase_device_misc_deregister",
        "Misc device registration failed"⟩] ++
    (if cfg.CONFIG_MALI_BUSLOG then
      [⟨some "buslog_init", some "buslog_term", "Bus log client registration failed"⟩]
    else []) ++
    [⟨some "kbase_gpuprops_populate_user_buffer", some "kbase_gpuprops_free_user_buffer",
        "GPU property population failed"⟩]
  else []) ++
  [⟨some "kbase_dummy_job_wa_load", some "kbase_dummy_job_wa_cleanup",
      "Dummy job workaround load failed"⟩]

/-- One external call made by the functions of the file, as it appears in the trace.
`init i` is `dev_init[i].init(kbdev)` and `term i` is `dev_init[i].term(kbdev)`. -/
inductive Call where
  | dev_info (msg : String)
  | kbase_device_id_init
  | kbase_disjoint_init
  | init (i : Nat)
  | dev_err (err_mes : String) (err : Int)
  | term (i : Nat)
  | kthread_init_worker (worker : String)
  | kthread_run (namefmt : String)
  | sched_setscheduler (thread : String) (sched_priority : Nat)
  | dev_warn (msg : String)
  | kbasep_js_devdata_halt
  | kbase_mem_halt
  deriving DecidableEq, Repr

/-- What the external calls of one run of `kbase_device_init` return:
`init_ret i` is the `int` returned by `dev_init[i].init(kbdev)` (each stage is
called at most once in a run), `jd_thread_IS_ERR` is `IS_ERR` of the pointer that
`kthread_run(..., "mali_jd_thread")` yields, `sched_setscheduler_ret` the `int`
returned by `sched_setscheduler`, `event_thread_IS_ERR` is `IS_ERR` of the pointer
that `kthread_run(..., "mali_event_thread")` yields. -/
structure Outcomes where
  init_ret : Nat → Int
  jd_thread_IS_ERR : Bool
  sched_setscheduler_ret : Int
  event_thread_IS_ERR : Bool

/-- The ways in which the C code could leave defined behaviour, or not return. -/
inductive Fault where
  | out_of_range (i : Nat)
  | null_call (i : Nat)
  | out_of_fuel
  deriving DecidableEq, Repr

/-- Number of values of an `unsigned int`. -/
def UINT_RANGE : Nat := 2 ^ 32

/-- The constant `ENOMEM` of errno-base.h. -/
def ENOMEM : Int := 12

/-- The constant `MALI_JD_THREAD_RT_PRIORITY`. -/
def MALI_JD_THREAD_RT_PRIORITY : Nat := 60

/-- The loop `while (i-- > 0) { if (dev_init[i].term) dev_init[i].term(kbdev); }`
of `kbase_device_term_partial`.  `fuel` bounds the number of executions of the body;
`i` is the value of the `unsigned int` before the test.  When the test fails the
decrement wraps `i` to `UINT_MAX`, a value that is not read again. -/
def term_partial_loop (dev_init : List struct_kbase_device_init) :
    Nat → Nat → List Call → Except Fault (List Call)
  | fuel, i, tr =>
    if 0 < i then
      match fuel with
      | 0 => .error .out_of_fuel
      | fuel + 1 =>
        let i := i - 1
        match dev_init[i]? with
        | none => .error (.out_of_range i)
        | some e =>
          match e.term with
          | some _ => term_partial_loop dev_init fuel i (tr ++ [Call.term i])
          | none => term_partial_loop dev_init fuel i tr
    else .ok tr

/-- The function `kbase_device_term_partial(kbdev, i)`.  The loop is given `i` executions of
its body. -/
def kbase_device_term_partial (dev_init : List struct_kbase_device_init) (i : Nat)
    (tr : List Call) : Except Fault (List Call) :=
  term_partial_loop dev_init i i tr

/-- The function `kbase_device_term(kbdev)`.  `ARRAY_SIZE(dev_init)` is converted to the
`unsigned int` parameter of `kbase_device_term_partial`. -/
def kbase_device_term (dev_init : List struct_kbase_device_init) (tr : List Call) :
    Except Fault (List Call) :=
  match kbase_device_term_partial dev_init (dev_init.length % UINT_RANGE) tr with
  | .error f => .error f
  | .ok tr => .ok (tr ++ [Call.kbasep_js_devdata_halt, Call.kbase_mem_halt])

/-- The loop `for (i = 0; i < ARRAY_SIZE(dev_init); i++) { ... }` of `kbase_device_init`,
from the test of its condition on.  `fuel` bounds the number of executions of the body;
the result is the value of `err` and the trace when the loop is left. -/
def device_init_loop (dev_init : List struct_kbase_device_init) (o : Outcomes) :
    Nat → Nat → Int → List Call → Except Fault (Int × List Call)
  | fuel, i, err, tr =>
    if i < dev_init.length then
      match fuel with
      | 0 => .error .out_of_fuel
      | fuel + 1 =>
        match dev_init[i]? with
        | none => .error (.out_of_range i)
        | some e =>
          match e.init with
          | none => .error (.null_call i)
          | some _ =>
            let err := o.init_ret i
            let tr := tr ++ [Call.init i]
            if err ≠ 0 then
              let tr := tr ++ [Call.dev_err e.err_mes err]
              match kbase_device_term_partial dev_init i tr with
              | .error f => .error f
              | .ok tr => .ok (err, tr)
            else
              device_init_loop dev_init o fuel ((i + 1) % UINT_RANGE) err tr
    else .ok (err, tr)

/-- The function `kbase_device_init(kbdev)`: the value returned and the trace. -/
def kbase_device_init (dev_init : List struct_kbase_device_init) (o : Outcomes)
    (tr : List Call) : Except Fault (Int × List Call) :=
  let err : Int := 0
  let tr := tr ++ [Call.dev_info "Kernel DDK version %s", Call.kbase_device_id_init,
    Call.kbase_disjoint_init]
  match device_init_loop dev_init o dev_init.length 0 err tr with
  | .error f => .error f
  | .ok (err, tr) =>
    let tr := tr ++ [Call.kthread_init_worker "job_done_worker",
      Call.kthread_run "mali_jd_thread"]
    if o.jd_thread_IS_ERR then
      .ok (err, tr)
    else
      let tr := tr ++ [Call.sched_setscheduler "mali_jd_thread" MALI_JD_THREAD_RT_PRIORITY]
      let tr :=
        if o.sched_setscheduler_ret ≠ 0 then
          tr ++ [Call.dev_warn "mali_jd_thread not set to RT prio"]
        else
          tr ++ [Call.dev_info "mali_jd_thread set to RT prio: %i"]
      let tr := tr ++ [Call.kthread_init_worker "event_worker",
        Call.kthread_run "mali_event_thread"]
      let err := if o.event_thread_IS_ERR then -ENOMEM else err
      .ok (err, tr)

/-- The index of the stage whose `term` a call invokes, if it is such a call. -/
def Call.term_index : Call → Option Nat
  | .term i => some i
  | _ => none

/-- The index of the stage whose `init` a call invokes, if it is such a call. -/
def Call.init_index : Call → Option Nat
  | .init i => some i
  | _ => none

/-- The stages whose `term` is invoked in a trace, in the order of the calls. -/
def term_calls (tr : List Call) : List Nat := tr.filterMap Call.term_index

/-- The stages whose `init` is invoked in a trace, in the order of the calls. -/
def init_calls (tr : List Call) : List Nat := tr.filterMap Call.init_index

/-- Whether `dev_init[j].term` is not `NULL` (false outside the table). -/
def has_term (dev_init : List struct_kbase_device_init) (j : Nat) : Bool :=
  match dev_init[j]? with
  | some e => e.term.isSome
  | none => false

/-- The indices below `i` whose `term` is not `NULL`, highest first. -/
def unwind_order (dev_init : List struct_kbase_device_init) (i : Nat) : List Nat :=
  (List.range i).reverse.filter (has_term dev_init)

/-- The label `dev_init[k].err_mes` (empty outside the table). -/
def err_mes_at (dev_init : List struct_kbase_device_init) (k : Nat) : String :=
  match dev_init[k]? with
  | some e => e.err_mes
  | none => ""

/-- A table all of whose `init` pointers are set and whose size fits an `unsigned int`. -/
def table_ok (dev_init : List struct_kbase_device_init) : Prop :=
  (∀ e ∈ dev_init, e.init.isSome = true) ∧ dev_init.length < UINT_RANGE

/-- The calls `kbase_device_init` makes before its loop. -/
def prologue_calls : List Call :=
  [Call.dev_info "Kernel DDK version %s", Call.kbase_device_id_init, Call.kbase_disjoint_init]

/-- The calls `kbase_device_init` makes after its loop, from `kthread_init_worker` of the
job-done worker on. -/
def worker_calls (o : Outcomes) : List Call :=
  [Call.kthread_init_worker "job_done_worker", Call.kthread_run "mali_jd_thread"] ++
  (if o.jd_thread_IS_ERR then []
  else
    [Call.sched_setscheduler "mali_jd_thread" MALI_JD_THREAD_RT_PRIORITY,
     if o.sched_setscheduler_ret ≠ 0 then Call.dev_warn "mali_jd_thread not set to RT prio"
     else Call.dev_info "mali_jd_thread set to RT prio: %i",
     Call.kthread_init_worker "event_worker", Call.kthread_run "mali_event_thread"])

/-- The value `kbase_device_init` returns when its loop leaves `err` behind. -/
def worker_ret (o : Outcomes) (err : Int) : Int :=
  if o.jd_thread_IS_ERR then err else if o.event_thread_IS_ERR then -ENOMEM else err

/-- A bring-up/shutdown cycle: `kbase_device_init(kbdev)` and then `kbase_device_term(kbdev)`
on the same device, whatever `kbase_device_init` returned.  The result is the value that
`kbase_device_init` returned and the trace of both calls. -/
def init_then_term (dev_init : List struct_kbase_device_init) (o : Outcomes)
    (tr : List Call) : Except Fault (Int × List Call) :=
  match kbase_device_init dev_init o tr with
  | .error f => .error f
  | .ok (err, tr) =>
    match kbase_device_term dev_init tr with
    | .error f => .error f
    | .ok tr => .ok (err, tr)

/-- Equality of results is decidable. -/
instance instDecidableEqExcept {ε α : Type} [DecidableEq ε] [DecidableEq α] :
    DecidableEq (Except ε α)
  | .ok a, .ok b =>
    if h : a = b then isTrue (by rw [h]) else isFalse (fun h2 => h (Except.ok.inj h2))
  | .error a, .error b =>
    if h : a = b then isTrue (by rw [h]) else isFalse (fun h2 => h (Except.error.inj h2))
  | .ok _, .error _ => isFalse (fun h => Except.noConfusion h)
  | .error _, .ok _ => isFalse (fun h => Except.noConfusion h)

/-! ## Concrete builds and runs -/

/-- A hardware build of the driver: no dummy model, `MALI_KBASE_BUILD` set, no bus logger. -/
def cfg_hw : Config := ⟨false, true, false⟩

/-- The constant `EINVAL` of errno-base.h. -/
def EINVAL : Int := 22

/-- Every stage succeeds, both workers are created, the priority is raised. -/
def o_all_ok : Outcomes := ⟨fun _ => 0, false, 0, false⟩

/-- Every stage succeeds and `kthread_run` fails for the job-done worker. -/
def o_jd_thread_fails : Outcomes := ⟨fun _ => 0, true, 0, false⟩

/-- Stage `k` fails with `-EINVAL`, every other call succeeds. -/
def o_stage_fails (k : Nat) : Outcomes :=
  ⟨fun i => if i = k then -EINVAL else 0, false, 0, false⟩

/-- Stage `k` fails with `-EINVAL`, the job-done worker is created, and `kthread_run`
fails for the event worker. -/
def o_stage_and_event_thread_fail (k : Nat) : Outcomes :=
  ⟨fun i => if i = k then -EINVAL else 0, false, 0, true⟩

/-! ## The late backend stage -/

/-- One external call made by `kbase_backend_late_init` or `kbase_backend_late_term`. -/
inductive BackendCall where
  | kbase_hwaccess_pm_init
  | kbase_reset_gpu_init
  | kbase_hwaccess_pm_powerup
  | kbase_backend_timer_init
  | kbasep_common_test_interrupt_handlers
  | dev_err (msg : String)
  | kbase_job_slot_init
  | kbase_backend_devfreq_init
  | kbase_pm_context_idle
  | kbase_gpuprops_update_l2_features
  | init_waitqueue_head
  | kbase_backend_devfreq_term
  | kbase_job_slot_halt
  | kbase_job_slot_term
  | kbase_backend_timer_term
  | kbase_hwaccess_pm_halt
  | kbase_reset_gpu_term
  | kbase_hwaccess_pm_term
  deriving DecidableEq, Repr

/-- The `int` each fallible call of `kbase_backend_late_init` returns in one run. -/
structure LateOutcomes where
  kbase_hwaccess_pm_init : Int
  kbase_reset_gpu_init : Int
  kbase_hwaccess_pm_powerup : Int
  kbase_backend_timer_init : Int
  kbasep_common_test_interrupt_handlers : Int
  kbase_job_slot_init : Int
  kbase_backend_devfreq_init : Int
  kbase_gpuprops_update_l2_features : Int
  deriving DecidableEq, Repr

/-- The code of `kbase_backend_late_init` from the label `fail_reset_gpu_init` to `return err`. -/
def fail_reset_gpu_init (tr : List BackendCall) : List BackendCall :=
  tr ++ [BackendCall.kbase_hwaccess_pm_term]

/-- The code of `kbase_backend_late_init` from the label `fail_pm_powerup` on. -/
def fail_pm_powerup (tr : List BackendCall) : List BackendCall :=
  fail_reset_gpu_init (tr ++ [BackendCall.kbase_reset_gpu_term])

/-- The code of `kbase_backend_late_init` from the label `fail_timer` on. -/
def fail_timer (tr : List BackendCall) : List BackendCall :=
  fail_pm_powerup (tr ++ [BackendCall.kbase_hwaccess_pm_halt])

/-- The code of `kbase_backend_late_init` from the label `fail_interrupt_test` on (the label
exists with `CONFIG_MALI_DEBUG` and without `CONFIG_MALI_NO_MALI`; its place is the same
in every build). -/
def fail_interrupt_test (tr : List BackendCall) : List BackendCall :=
  fail_timer (tr ++ [BackendCall.kbase_backend_timer_term])

/-- The code of `kbase_backend_late_init` from the label `fail_job_slot` on. -/
def fail_job_slot (tr : List BackendCall) : List BackendCall :=
  fail_interrupt_test tr

/-- The code of `kbase_backend_late_init` from the label `fail_devfreq_init` on. -/
def fail_devfreq_init (tr : List BackendCall) : List BackendCall :=
  fail_job_slot (tr ++ [BackendCall.kbase_job_slot_term])

/-- The code of `kbase_backend_late_init` from the label `fail_update_l2_features` on: the
label stands right before `fail_devfreq_init`, with no statement between them. -/
def fail_update_l2_features (tr : List BackendCall) : List BackendCall :=
  fail_devfreq_init tr

/-- The function `kbase_backend_late_init` from `err = kbase_job_slot_init(kbdev)` on. -/
def late_init_from_job_slot (o : LateOutcomes) (tr : List BackendCall) :
    Int × List BackendCall :=
  let err := o.kbase_job_slot_init
  let tr := tr ++ [BackendCall.kbase_job_slot_init]
  if err ≠ 0 then (err, fail_job_slot tr)
  else
    let err := o.kbase_backend_devfreq_init
    let tr := tr ++ [BackendCall.kbase_backend_devfreq_init]
    if err ≠ 0 then (err, fail_devfreq_init tr)
    else
      let tr := tr ++ [BackendCall.kbase_pm_context_idle]
      let err := o.kbase_gpuprops_update_l2_features
      let tr := tr ++ [BackendCall.kbase_gpuprops_update_l2_features]
      if err ≠ 0 then (err, fail_update_l2_features tr)
      else (0, tr ++ [BackendCall.init_waitqueue_head])

/-- The function `kbase_backend_late_init(kbdev)`: the value returned and the trace.  The
interrupt test is compiled in with `CONFIG_MALI_DEBUG` and without `CONFIG_MALI_NO_MALI`. -/
def kbase_backend_late_init (cfg : Config) (CONFIG_MALI_DEBUG : Bool) (o : LateOutcomes)
    (tr : List BackendCall) : Int × List BackendCall :=
  let err := o.kbase_hwaccess_pm_init
  let tr := tr ++ [BackendCall.kbase_hwaccess_pm_init]
  if err ≠ 0 then (err, tr)
  else
    let err := o.kbase_reset_gpu_init
    let tr := tr ++ [BackendCall.kbase_reset_gpu_init]
    if err ≠ 0 then (err, fail_reset_gpu_init tr)
    else
      let err := o.kbase_hwaccess_pm_powerup
      let tr := tr ++ [BackendCall.kbase_hwaccess_pm_powerup]
      if err ≠ 0 then (err, fail_pm_powerup tr)
      else
        let err := o.kbase_backend_timer_init
        let tr := tr ++ [BackendCall.kbase_backend_timer_init]
        if err ≠ 0 then (err, fail_timer tr)
        else if CONFIG_MALI_DEBUG = true ∧ cfg.CONFIG_MALI_NO_MALI = false then
          let tr := tr ++ [BackendCall.kbasep_common_test_interrupt_handlers]
          if o.kbasep_common_test_interrupt_handlers ≠ 0 then
            (-EINVAL, fail_interrupt_test
              (tr ++ [BackendCall.dev_err "Interrupt assignment check failed.\n"]))
          else late_init_from_job_slot o tr
        else late_init_from_job_slot o tr

/-- The function `kbase_backend_late_term(kbdev)`. -/
def kbase_backend_late_term (tr : List BackendCall) : List BackendCall :=
  tr ++ [BackendCall.kbase_backend_devfreq_term, BackendCall.kbase_job_slot_halt,
    BackendCall.kbase_job_slot_term, BackendCall.kbase_backend_timer_term,
    BackendCall.kbase_hwaccess_pm_halt, BackendCall.kbase_reset_gpu_term,
    BackendCall.kbase_hwaccess_pm_term]

/-- The teardown call that undoes a sub-step of `kbase_backend_late_init`:
`kbase_hwaccess_pm_init` / `kbase_hwaccess_pm_term`, `kbase_reset_gpu_init` /
`kbase_reset_gpu_term`, `kbase_hwaccess_pm_powerup` / `kbase_hwaccess_pm_halt`,
`kbase_backend_timer_init` / `kbase_backend_timer_term`, `kbase_job_slot_init` /
`kbase_job_slot_term`, `kbase_backend_devfreq_init` / `kbase_backend_devfreq_term`. -/
def BackendCall.counterpart : BackendCall → Option BackendCall
  | .kbase_hwaccess_pm_init => some .kbase_hwaccess_pm_term
  | .kbase_reset_gpu_init => some .kbase_reset_gpu_term
  | .kbase_hwaccess_pm_powerup => some .kbase_hwaccess_pm_halt
  | .kbase_backend_timer_init => some .kbase_backend_timer_term
  | .kbase_job_slot_init => some .kbase_job_slot_term
  | .kbase_backend_devfreq_init => some .kbase_backend_devfreq_term
  | _ => none

/-- Whether a call is one of the teardown calls of the late backend stage. -/
def BackendCall.is_teardown : BackendCall → Bool
  | .kbase_backend_devfreq_term => true
  | .kbase_job_slot_halt => true
  | .kbase_job_slot_term => true
  | .kbase_backend_timer_term => true
  | .kbase_hwaccess_pm_halt => true
  | .kbase_reset_gpu_term => true
  | .kbase_hwaccess_pm_term => true
  | _ => false

/-- Whether a call is one of the fallible sub-steps of `kbase_backend_late_init`. -/
def BackendCall.is_sub_step : BackendCall → Bool
  | .kbase_hwaccess_pm_init => true
  | .kbase_reset_gpu_init => true
  | .kbase_hwaccess_pm_powerup => true
  | .kbase_backend_timer_init => true
  | .kbasep_common_test_interrupt_handlers => true
  | .kbase_job_slot_init => true
  | .kbase_backend_devfreq_init => true
  | .kbase_gpuprops_update_l2_features => true
  | _ => false

/-- The teardown a failed run owes: the counterparts of the sub-steps that came before the
last one called (the one that failed), latest first. -/
def owed_teardown (tr : List BackendCall) : List BackendCall :=
  ((tr.filter BackendCall.is_sub_step).dropLast.filterMap BackendCall.counterpart).reverse

/-- Every fallible call of `kbase_backend_late_init` succeeds. -/
def late_all_ok : LateOutcomes := ⟨0, 0, 0, 0, 0, 0, 0, 0⟩

/-- Only `kbase_gpuprops_update_l2_features` fails, with `-EINVAL`. -/
def late_l2_features_fails : LateOutcomes := ⟨0, 0, 0, 0, 0, 0, 0, -EINVAL⟩

/-- Only `kbase_backend_devfreq_init` fails, with `-EINVAL`. -/
def late_devfreq_init_fails : LateOutcomes := ⟨0, 0, 0, 0, 0, 0, -EINVAL, 0⟩

/-- The warnings in a trace. -/
def warnings (tr : List Call) : List String :=
  tr.filterMap (fun c => match c with
    | Call.dev_warn msg => some msg
    | _ => none)

/-- Every stage succeeds, both workers are created, and `sched_setscheduler` fails with
`-EPERM` (-1). -/
def o_priority_fails : Outcomes := ⟨fun _ => 0, false, -1, false⟩

/-- Every stage succeeds, the job-done worker is created, and `kthread_run` fails for the
event worker. -/
def o_event_thread_fails : Outcomes := ⟨fun _ => 0, false, 0, true⟩

/-! ## A whole run: `kbase_device_init` with the late backend stage of the file -/

theorem unwind_order_succ (tbl : List struct_kbase_device_init) (i : Nat) :
    unwind_order tbl (i + 1) =
      if has_term tbl i then i :: unwind_order tbl i else unwind_order tbl i := by
  unfold unwind_order
  rw [List.range_succ, List.reverse_append, List.reverse_singleton, List.singleton_append,
    List.filter_cons]

theorem term_partial_loop_succ (tbl : List struct_kbase_device_init) (fuel i : Nat)
    (tr : List Call) (e : struct_kbase_device_init) (he : tbl[i]? = some e) :
    term_partial_loop tbl (fuel + 1) (i + 1) tr =
      term_partial_loop tbl fuel i (if e.term.isSome then tr ++ [Call.term i] else tr) := by
  rw [term_partial_loop]
  simp only [Nat.zero_lt_succ, if_true, Nat.add_sub_cancel, he]
  cases h : e.term <;> simp

theorem term_partial_loop_ok (tbl : List struct_kbase_device_init) :
    ∀ (i : Nat) (tr : List Call), i ≤ tbl.length →
      term_partial_loop tbl i i tr = .ok (tr ++ (unwind_order tbl i).map Call.term) := by
  intro i
  induction i with
  | zero =>
    intro tr _
    simp [term_partial_loop, unwind_order]
  | succ i ih =>
    intro tr hi
    have hlt : i < tbl.length := hi
    have he : tbl[i]? = some tbl[i] := List.getElem?_eq_getElem hlt
    rw [term_partial_loop_succ tbl i i tr _ he, ih _ (Nat.le_of_lt hlt), unwind_order_succ]
    have hh : has_term tbl i = (tbl[i]).term.isSome := by simp [has_term, he]
    rw [hh]
    cases (tbl[i]).term.isSome <;> simp

theorem term_partial_loop_out_of_fuel (tbl : List struct_kbase_device_init) :
    ∀ (fuel i : Nat) (tr : List Call), fuel < i → i ≤ tbl.length →
      term_partial_loop tbl fuel i tr = .error .out_of_fuel := by
  intro fuel
  induction fuel with
  | zero =>
    intro i tr h _
    rw [term_partial_loop]
    simp [h]
  | succ fuel ih =>
    intro i tr h hi
    obtain ⟨j, rfl⟩ : ∃ j, i = j + 1 := ⟨i - 1, by omega⟩
    have hlt : j < tbl.length := hi
    rw [term_partial_loop_succ tbl fuel j tr _ (List.getElem?_eq_getElem hlt)]
    exact ih _ _ (by omega) (Nat.le_of_lt hlt)

theorem kbase_device_term_partial_ok (tbl : List struct_kbase_device_init) (i : Nat)
    (tr : List Call) (hi : i ≤ tbl.length) :
    kbase_device_term_partial tbl i tr = .ok (tr ++ (unwind_order tbl i).map Call.term) :=
  term_partial_loop_ok tbl i tr hi

/-! ## The bring-up loop -/

theorem device_init_loop_exit (tbl : List struct_kbase_device_init) (o : Outcomes)
    (fuel i : Nat) (err : Int) (tr : List Call) (h : ¬ i < tbl.length) :
    device_init_loop tbl o fuel i err tr = .ok (err, tr) := by
  rw [device_init_loop.eq_def]
  simp [h]

theorem device_init_loop_step_ok (tbl : List struct_kbase_device_init) (o : Outcomes)
    (htbl : table_ok tbl) (fuel i : Nat) (err : Int) (tr : List Call)
    (hi : i < tbl.length) (h0 : o.init_ret i = 0) :
    device_init_loop tbl o (fuel + 1) i err tr =
      device_init_loop tbl o fuel (i + 1) 0 (tr ++ [Call.init i]) := by
  have hmod : (i + 1) % UINT_RANGE = i + 1 := Nat.mod_eq_of_lt (by have := htbl.2; omega)
  have hsome := htbl.1 _ (List.getElem_mem hi)
  obtain ⟨f, hf⟩ := Option.isSome_iff_exists.mp hsome
  rw [device_init_loop.eq_def]
  simp [hi, hf, h0, hmod]

theorem device_init_loop_step_fail (tbl : List struct_kbase_device_init) (o : Outcomes)
    (htbl : table_ok tbl) (fuel i : Nat) (err : Int) (tr : List Call)
    (hi : i < tbl.length) (h0 : o.init_ret i ≠ 0) :
    device_init_loop tbl o (fuel + 1) i err tr =
      .ok (o.init_ret i, tr ++ [Call.init i] ++ [Call.dev_err (err_mes_at tbl i) (o.init_ret i)]
        ++ (unwind_order tbl i).map Call.term) := by
  have hsome := htbl.1 _ (List.getElem_mem hi)
  obtain ⟨f, hf⟩ := Option.isSome_iff_exists.mp hsome
  rw [device_init_loop.eq_def]
  simp [hi, hf, h0, err_mes_at, kbase_device_term_partial_ok tbl i _ (Nat.le_of_lt hi)]

theorem device_init_loop_all_ok (tbl : List struct_kbase_device_init) (o : Outcomes)
    (htbl : table_ok tbl) :
    ∀ (d i fuel : Nat) (tr : List Call), i + d = tbl.length → d ≤ fuel →
      (∀ j, i ≤ j → j < tbl.length → o.init_ret j = 0) →
      device_init_loop tbl o fuel i 0 tr = .ok (0, tr ++ (List.range' i d).map Call.init) := by
  intro d
  induction d with
  | zero =>
    intro i fuel tr hd _ _
    rw [device_init_loop_exit tbl o fuel i 0 tr (by omega)]
    simp
  | succ d ih =>
    intro i fuel tr hd hfuel hret
    obtain ⟨fuel, rfl⟩ : ∃ f, fuel = f + 1 := ⟨fuel - 1, by omega⟩
    rw [device_init_loop_step_ok tbl o htbl fuel i 0 tr (by omega) (hret i (le_refl _) (by omega)),
      ih (i + 1) fuel _ (by omega) (by omega) (fun j h1 h2 => hret j (by omega) h2)]
    simp [List.range'_succ]

theorem device_init_loop_first_fail (tbl : List struct_kbase_device_init) (o : Outcomes)
    (htbl : table_ok tbl) (k : Nat) (hk : k < tbl.length) (hfail : o.init_ret k ≠ 0) :
    ∀ (d i fuel : Nat) (err : Int) (tr : List Call), i + d = k → d < fuel →
      (∀ j, i ≤ j → j < k → o.init_ret j = 0) →
      device_init_loop tbl o fuel i err tr =
        .ok (o.init_ret k, tr ++ (List.range' i (d + 1)).map Call.init
          ++ [Call.dev_err (err_mes_at tbl k) (o.init_ret k)]
          ++ (unwind_order tbl k).map Call.term) := by
  intro d
  induction d with
  | zero =>
    intro i fuel err tr hd hfuel _
    obtain ⟨fuel, rfl⟩ : ∃ f, fuel = f + 1 := ⟨fuel - 1, by omega⟩
    have hik : i = k := by omega
    subst hik
    rw [device_init_loop_step_fail tbl o htbl fuel i err tr hk hfail]
    simp
  | succ d ih =>
    intro i fuel err tr hd hfuel hret
    obtain ⟨fuel, rfl⟩ : ∃ f, fuel = f + 1 := ⟨fuel - 1, by omega⟩
    rw [device_init_loop_step_ok tbl o htbl fuel i err tr (by omega) (hret i (le_refl _) (by omega)),
      ih (i + 1) fuel 0 _ (by omega) (by omega) (fun j h1 h2 => hret j (by omega) h2)]
    simp [List.range'_succ (s := i)]

theorem dev_init_table_ok (cfg : Config) : table_ok (dev_init cfg) := by
  rcases cfg with ⟨a, b, c⟩
  cases a <;> cases b <;> cases c <;> exact ⟨by decide, by decide⟩

/-! ## The whole of `kbase_device_init` -/

theorem kbase_device_init_after_loop (tbl : List struct_kbase_device_init) (o : Outcomes)
    (tr tr1 : List Call) (err : Int)
    (h : device_init_loop tbl o tbl.length 0 0 (tr ++ prologue_calls) = .ok (err, tr1)) :
    kbase_device_init tbl o tr = .ok (worker_ret o err, tr1 ++ worker_calls o) := by
  unfold kbase_device_init
  simp only [prologue_calls] at h
  simp only [h]
  unfold worker_ret worker_calls
  cases o.jd_thread_IS_ERR <;> by_cases hs : o.sched_setscheduler_ret = 0 <;> simp [hs]

theorem kbase_device_init_all_ok (tbl : List struct_kbase_device_init) (o : Outcomes)
    (htbl : table_ok tbl) (tr : List Call) (hok : ∀ j, j < tbl.length → o.init_ret j = 0) :
    kbase_device_init tbl o tr =
      .ok (worker_ret o 0, tr ++ (prologue_calls ++ (List.range tbl.length).map Call.init
        ++ worker_calls o)) := by
  rw [kbase_device_init_after_loop tbl o tr _ 0
    (device_init_loop_all_ok tbl o htbl tbl.length 0 tbl.length _ (by omega) (le_refl _)
      (fun j _ h => hok j h))]
  simp [List.range_eq_range']

theorem kbase_device_init_first_fail (tbl : List struct_kbase_device_init) (o : Outcomes)
    (htbl : table_ok tbl) (tr : List Call) (k : Nat) (hk : k < tbl.length)
    (hok : ∀ j, j < k → o.init_ret j = 0) (hfail : o.init_ret k ≠ 0) :
    kbase_device_init tbl o tr =
      .ok (worker_ret o (o.init_ret k), tr ++ (prologue_calls
        ++ (List.range (k + 1)).map Call.init
        ++ [Call.dev_err (err_mes_at tbl k) (o.init_ret k)]
        ++ (unwind_order tbl k).map Call.term ++ worker_calls o)) := by
  rw [kbase_device_init_after_loop tbl o tr _ (o.init_ret k)
    (device_init_loop_first_fail tbl o htbl k hk hfail k 0 tbl.length 0 _ (by omega) hk
      (fun j _ h => hok j h))]
  simp [List.range_eq_range']

theorem first_fail_cases (f : Nat → Int) (n : Nat) :
    (∀ j, j < n → f j = 0) ∨ ∃ k, k < n ∧ (∀ j, j < k → f j = 0) ∧ f k ≠ 0 := by
  induction n with
  | zero => exact Or.inl (fun j h => absurd h (Nat.not_lt_zero j))
  | succ n ih =>
    rcases ih with h | ⟨k, hk, h1, h2⟩
    · by_cases hn : f n = 0
      · left
        intro j hj
        rcases Nat.lt_succ_iff_lt_or_eq.mp hj with h3 | h3
        · exact h j h3
        · rw [h3]; exact hn
      · exact Or.inr ⟨n, Nat.lt_succ_self n, h, hn⟩
    · exact Or.inr ⟨k, Nat.lt_succ_of_lt hk, h1, h2⟩

/-! ## Reading a trace -/

theorem term_calls_append (a b : List Call) :
    term_calls (a ++ b) = term_calls a ++ term_calls b := by
  simp [term_calls]

theorem init_calls_append (a b : List Call) :
    init_calls (a ++ b) = init_calls a ++ init_calls b := by
  simp [init_calls]

theorem term_calls_map_term (l : List Nat) : term_calls (l.map Call.term) = l := by
  induction l with
  | nil => rfl
  | cons a l ih =>
    simp only [term_calls] at ih
    simp [term_calls, Call.term_index, ih]

theorem term_calls_map_init (l : List Nat) : term_calls (l.map Call.init) = [] := by
  induction l with
  | nil => rfl
  | cons a l ih =>
    simp only [term_calls] at ih
    simp [term_calls, Call.term_index, ih]

theorem init_calls_map_init (l : List Nat) : init_calls (l.map Call.init) = l := by
  induction l with
  | nil => rfl
  | cons a l ih =>
    simp only [init_calls] at ih
    simp [init_calls, Call.init_index, ih]

theorem init_calls_map_term (l : List Nat) : init_calls (l.map Call.term) = [] := by
  induction l with
  | nil => rfl
  | cons a l ih =>
    simp only [init_calls] at ih
    simp [init_calls, Call.init_index, ih]

theorem term_calls_worker_calls (o : Outcomes) : term_calls (worker_calls o) = [] := by
  unfold worker_calls
  cases o.jd_thread_IS_ERR <;> by_cases hs : o.sched_setscheduler_ret = 0 <;>
    simp [hs, term_calls, Call.term_index]

theorem init_calls_worker_calls (o : Outcomes) : init_calls (worker_calls o) = [] := by
  unfold worker_calls
  cases o.jd_thread_IS_ERR <;> by_cases hs : o.sched_setscheduler_ret = 0 <;>
    simp [hs, init_calls, Call.init_index]

theorem mem_unwind_order (tbl : List struct_kbase_device_init) (i j : Nat) :
    j ∈ unwind_order tbl i ↔ j < i ∧ has_term tbl j = true := by
  simp [unwind_order, List.mem_filter]

theorem unwind_order_descending (tbl : List struct_kbase_device_init) (i : Nat) :
    (unwind_order tbl i).Pairwise (fun a b => a > b) := by
  unfold unwind_order
  apply List.Pairwise.filter
  rw [List.pairwise_reverse]
  exact List.pairwise_lt_range i


theorem mem_term_calls (l : List Call) (j : Nat) : j ∈ term_calls l ↔ Call.term j ∈ l := by
  unfold term_calls
  rw [List.mem_filterMap]
  constructor
  · rintro ⟨c, hc, h⟩
    cases c <;> simp [Call.term_index] at h
    subst h
    exact hc
  · intro h
    exact ⟨_, h, rfl⟩

theorem mem_init_calls (l : List Call) (j : Nat) : j ∈ init_calls l ↔ Call.init j ∈ l := by
  unfold init_calls
  rw [List.mem_filterMap]
  constructor
  · rintro ⟨c, hc, h⟩
    cases c <;> simp [Call.init_index] at h
    subst h
    exact hc
  · intro h
    exact ⟨_, h, rfl⟩

theorem term_calls_prologue_calls : term_calls prologue_calls = [] := rfl

theorem init_calls_prologue_calls : init_calls prologue_calls = [] := rfl

theorem dev_init_length_lt (cfg : Config) : (dev_init cfg).length < UINT_RANGE :=
  (dev_init_table_ok cfg).2

theorem kbase_device_term_ok (tbl : List struct_kbase_device_init) (tr : List Call)
    (hlen : tbl.length < UINT_RANGE) :
    kbase_device_term tbl tr =
      .ok (tr ++ ((unwind_order tbl tbl.length).map Call.term
        ++ [Call.kbasep_js_devdata_halt, Call.kbase_mem_halt])) := by
  unfold kbase_device_term
  rw [Nat.mod_eq_of_lt hlen, kbase_device_term_partial_ok tbl _ tr (le_refl _)]
  simp

theorem term_calls_fail_trace (tbl : List struct_kbase_device_init) (o : Outcomes) (k : Nat)
    (m : String) (e : Int) :
    term_calls (prologue_calls ++ (List.range (k + 1)).map Call.init ++ [Call.dev_err m e]
      ++ (unwind_order tbl k).map Call.term ++ worker_calls o) = unwind_order tbl k := by
  simp only [term_calls_append, term_calls_prologue_calls, term_calls_map_init,
    term_calls_map_term, term_calls_worker_calls]
  simp [term_calls, Call.term_index]

theorem init_calls_fail_trace (tbl : List struct_kbase_device_init) (o : Outcomes) (k : Nat)
    (m : String) (e : Int) :
    init_calls (prologue_calls ++ (List.range (k + 1)).map Call.init ++ [Call.dev_err m e]
      ++ (unwind_order tbl k).map Call.term ++ worker_calls o) = List.range (k + 1) := by
  simp only [init_calls_append, init_calls_prologue_calls, init_calls_map_init,
    init_calls_map_term, init_calls_worker_calls]
  simp [init_calls, Call.init_index]

theorem term_calls_ok_trace (o : Outcomes) (n : Nat) :
    term_calls (prologue_calls ++ (List.range n).map Call.init ++ worker_calls o) = [] := by
  simp only [term_calls_append, term_calls_prologue_calls, term_calls_map_init,
    term_calls_worker_calls]
  rfl

theorem init_calls_ok_trace (o : Outcomes) (n : Nat) :
    init_calls (prologue_calls ++ (List.range n).map Call.init ++ worker_calls o)
      = List.range n := by
  simp only [init_calls_append, init_calls_prologue_calls, init_calls_map_init,
    init_calls_worker_calls]
  simp

theorem count_eq_one_of_descending (l : List Nat) (j : Nat)
    (hl : l.Pairwise (fun a b => a > b)) (hj : j ∈ l) : l.count j = 1 :=
  List.count_eq_one_of_mem (hl.imp (fun h => Nat.ne_of_gt h)) hj

theorem init_before_of_range (calls pre post : List Call) (m i : Nat)
    (h : init_calls calls = List.range m) (hs : calls = pre ++ Call.init i :: post) :
    i < m ∧ ∀ j, j < i → Call.init j ∈ pre := by
  have hi : i < m := by
    have : i ∈ init_calls calls := (mem_init_calls calls i).mpr (by rw [hs]; simp)
    rw [h] at this
    exact List.mem_range.mp this
  refine ⟨hi, fun j hj => ?_⟩
  have hsplit : init_calls pre ++ i :: init_calls post = List.range m := by
    rw [← h, hs, init_calls_append]
    rfl
  have hp : (init_calls pre ++ i :: init_calls post).Pairwise (fun a b => a < b) := by
    rw [hsplit]
    exact List.pairwise_lt_range m
  have hjm : j ∈ init_calls pre ++ i :: init_calls post := by
    rw [hsplit]
    exact List.mem_range.mpr (by omega)
  rcases List.mem_append.mp hjm with h1 | h1
  · exact (mem_init_calls pre j).mp h1
  · rcases List.mem_cons.mp h1 with h2 | h2
    · omega
    · have := List.rel_of_pairwise_cons (List.pairwise_append.mp hp).2.1 h2
      omega

theorem count_range_le_one (m i : Nat) : (List.range m).count i ≤ 1 :=
  List.nodup_iff_count_le_one.mp (List.nodup_range m) i

theorem count_init_calls (l : List Call) (j : Nat) :
    (init_calls l).count j = l.count (Call.init j) := by
  induction l with
  | nil => rfl
  | cons c l ih =>
    unfold init_calls at ih ⊢
    cases c <;> simp [Call.init_index, List.filterMap_cons, List.count_cons, ih]

theorem count_term_calls (l : List Call) (j : Nat) :
    (term_calls l).count j = l.count (Call.term j) := by
  induction l with
  | nil => rfl
  | cons c l ih =>
    unfold term_calls at ih ⊢
    cases c <;> simp [Call.term_index, List.filterMap_cons, List.count_cons, ih]

theorem init_then_term_ok (tbl : List struct_kbase_device_init) (o : Outcomes)
    (tr calls : List Call) (err : Int) (hlen : tbl.length < UINT_RANGE)
    (h : kbase_device_init tbl o tr = .ok (err, tr ++ calls)) :
    init_then_term tbl o tr =
      .ok (err, tr ++ (calls ++ ((unwind_order tbl tbl.length).map Call.term
        ++ [Call.kbasep_js_devdata_halt, Call.kbase_mem_halt]))) := by
  unfold init_then_term
  simp only [h, kbase_device_term_ok tbl _ hlen, List.append_assoc]

theorem term_calls_shutdown (tbl : List struct_kbase_device_init) (n : Nat) :
    term_calls ((unwind_order tbl n).map Call.term
      ++ [Call.kbasep_js_devdata_halt, Call.kbase_mem_halt]) = unwind_order tbl n := by
  rw [term_calls_append, term_calls_map_term]
  simp [term_calls, Call.term_index]

theorem count_unwind_order_le_one (tbl : List struct_kbase_device_init) (n j : Nat) :
    (unwind_order tbl n).count j ≤ 1 :=
  List.nodup_iff_count_le_one.mp
    ((unwind_order_descending tbl n).imp (fun h => Nat.ne_of_gt h)) j

theorem term_split (A B pre post : List Call) (i : Nat) (hA : ∀ j, Call.term j ∉ A)
    (h : A ++ B = pre ++ Call.term i :: post) :
    (∀ c, c ∈ A → c ∈ pre) ∧ Call.term i ∈ B := by
  rcases List.append_eq_append_iff.mp h with ⟨a, h1, h2⟩ | ⟨c, h1, h2⟩
  · refine ⟨fun x hx => ?_, ?_⟩
    · rw [h1]
      exact List.mem_append_left _ hx
    · rw [h2]
      simp
  · cases c with
    | nil =>
      simp only [List.nil_append, List.append_nil] at h1 h2
      refine ⟨fun x hx => h1 ▸ hx, ?_⟩
      rw [← h2]
      exact List.mem_cons_self _ _
    | cons x c =>
      simp only [List.cons_append, List.cons.injEq] at h2
      exact absurd (by rw [h1, ← h2.1]; simp) (hA i)

theorem no_term_in_bringup (n : Nat) (tail : List Call)
    (htail : ∀ j, Call.term j ∉ tail) :
    ∀ j, Call.term j ∉ prologue_calls ++ (List.range n).map Call.init ++ tail := by
  intro j h
  rcases List.mem_append.mp h with h1 | h1
  · rw [← mem_term_calls, term_calls_append, term_calls_prologue_calls,
      term_calls_map_init] at h1
    exact absurd h1 (List.not_mem_nil j)
  · exact htail j h1

theorem no_term_in_worker_calls (o : Outcomes) : ∀ j, Call.term j ∉ worker_calls o := by
  intro j h
  rw [← mem_term_calls, term_calls_worker_calls] at h
  exact absurd h (List.not_mem_nil j)

theorem init_mem_bringup (n j : Nat) (tail : List Call) (hj : j < n) :
    Call.init j ∈ prologue_calls ++ (List.range n).map Call.init ++ tail :=
  List.mem_append_left _ (List.mem_append_right _
    (List.mem_map.mpr ⟨j, List.mem_range.mpr hj, rfl⟩))

theorem warnings_append (a b : List Call) : warnings (a ++ b) = warnings a ++ warnings b := by
  simp [warnings]

theorem warnings_map_init (l : List Nat) : warnings (l.map Call.init) = [] := by
  induction l with
  | nil => rfl
  | cons a l ih =>
    simp only [warnings] at ih
    simp [warnings, ih]

theorem worker_ret_ne_zero (o : Outcomes) (e : Int) (he : e ≠ 0) : worker_ret o e ≠ 0 := by
  unfold worker_ret
  cases o.jd_thread_IS_ERR <;> cases o.event_thread_IS_ERR <;> simp [he, ENOMEM]

theorem term_partial_loop_past_end (tbl : List struct_kbase_device_init) (tr : List Call) :
    kbase_device_term_partial tbl (tbl.length + 1) tr = .error (.out_of_range tbl.length) := by
  unfold kbase_device_term_partial
  rw [term_partial_loop]
  simp

theorem late_init_from_job_slot_unwinds (o : LateOutcomes) (pre : List BackendCall)
    (hfail : (late_init_from_job_slot o pre).1 ≠ 0)
    (hl2 : BackendCall.kbase_gpuprops_update_l2_features ∉ (late_init_from_job_slot o pre).2) :
    ∃ tail, (late_init_from_job_slot o pre).2 = pre ++ tail ∧
      (tail = [BackendCall.kbase_job_slot_init, BackendCall.kbase_backend_timer_term,
          BackendCall.kbase_hwaccess_pm_halt, BackendCall.kbase_reset_gpu_term,
          BackendCall.kbase_hwaccess_pm_term] ∨
       tail = [BackendCall.kbase_job_slot_init, BackendCall.kbase_backend_devfreq_init,
          BackendCall.kbase_job_slot_term, BackendCall.kbase_backend_timer_term,
          BackendCall.kbase_hwaccess_pm_halt, BackendCall.kbase_reset_gpu_term,
          BackendCall.kbase_hwaccess_pm_term]) := by
  by_cases h5 : o.kbase_job_slot_init = 0
  · by_cases h6 : o.kbase_backend_devfreq_init = 0
    · by_cases h7 : o.kbase_gpuprops_update_l2_features = 0
      · exact absurd (by simp [late_init_from_job_slot, h5, h6, h7]) hfail
      · exact absurd (by simp [late_init_from_job_slot, h5, h6, h7, fail_update_l2_features,
          fail_devfreq_init, fail_job_slot, fail_interrupt_test, fail_timer, fail_pm_powerup,
          fail_reset_gpu_init]) hl2
    · exact ⟨_, by simp [late_init_from_job_slot, h5, h6, fail_devfreq_init, fail_job_slot,
        fail_interrupt_test, fail_timer, fail_pm_powerup, fail_reset_gpu_init], Or.inr rfl⟩
  · exact ⟨_, by simp [late_init_from_job_slot, h5, fail_job_slot,
      fail_interrupt_test, fail_timer, fail_pm_powerup, fail_reset_gpu_init], Or.inl rfl⟩

theorem late_init_from_job_slot_success (o : LateOutcomes) (pre : List BackendCall)
    (h : (late_init_from_job_slot o pre).1 = 0) :
    (o.kbase_job_slot_init = 0 ∧ o.kbase_backend_devfreq_init = 0 ∧
      o.kbase_gpuprops_update_l2_features = 0) ∧
    (late_init_from_job_slot o pre).2 = pre ++
      [BackendCall.kbase_job_slot_init, BackendCall.kbase_backend_devfreq_init,
        BackendCall.kbase_pm_context_idle, BackendCall.kbase_gpuprops_update_l2_features,
        BackendCall.init_waitqueue_head] := by
  by_cases h5 : o.kbase_job_slot_init = 0
  · by_cases h6 : o.kbase_backend_devfreq_init = 0
    · by_cases h7 : o.kbase_gpuprops_update_l2_features = 0
      · exact ⟨⟨h5, h6, h7⟩, by simp [late_init_from_job_slot, h5, h6, h7]⟩
      · exact absurd h (by simp [late_init_from_job_slot, h5, h6, h7])
    · exact absurd h (by simp [late_init_from_job_slot, h5, h6])
  · exact absurd h (by simp [late_init_from_job_slot, h5])

theorem late_init_unwinds_before_l2_features (cfg : Config) (CONFIG_MALI_DEBUG : Bool)
    (o : LateOutcomes)
    (hfail : (kbase_backend_late_init cfg CONFIG_MALI_DEBUG o []).1 ≠ 0)
    (hl2 : BackendCall.kbase_gpuprops_update_l2_features ∉
      (kbase_backend_late_init cfg CONFIG_MALI_DEBUG o []).2) :
    (kbase_backend_late_init cfg CONFIG_MALI_DEBUG o []).2.filter BackendCall.is_teardown =
      owed_teardown (kbase_backend_late_init cfg CONFIG_MALI_DEBUG o []).2 := by
  by_cases h1 : o.kbase_hwaccess_pm_init = 0
  swap
  · simp only [kbase_backend_late_init, h1, ne_eq, not_false_eq_true, if_true]
    rfl
  by_cases h2 : o.kbase_reset_gpu_init = 0
  swap
  · simp only [kbase_backend_late_init, h1, h2, ne_eq, not_false_eq_true, if_true,
      not_true_eq_false, if_false]
    rfl
  by_cases h3 : o.kbase_hwaccess_pm_powerup = 0
  swap
  · simp only [kbase_backend_late_init, h1, h2, h3, ne_eq, not_false_eq_true, if_true,
      not_true_eq_false, if_false]
    rfl
  by_cases h4 : o.kbase_backend_timer_init = 0
  swap
  · simp only [kbase_backend_late_init, h1, h2, h3, h4, ne_eq, not_false_eq_true, if_true,
      not_true_eq_false, if_false]
    rfl
  by_cases hd : CONFIG_MALI_DEBUG = true ∧ cfg.CONFIG_MALI_NO_MALI = false
  · by_cases ht : o.kbasep_common_test_interrupt_handlers = 0
    · simp only [kbase_backend_late_init, h1, h2, h3, h4, hd, ht, ne_eq, not_false_eq_true,
        if_true, not_true_eq_false, if_false, and_self] at hfail hl2 ⊢
      obtain ⟨tail, hs, ht1 | ht1⟩ := late_init_from_job_slot_unwinds o _ hfail hl2 <;>
        · rw [hs, ht1]
          rfl
    · simp only [kbase_backend_late_init, h1, h2, h3, h4, hd, ht, ne_eq, not_false_eq_true,
        if_true, not_true_eq_false, if_false, and_self]
      rfl
  · simp only [kbase_backend_late_init, h1, h2, h3, h4, hd, ne_eq, not_false_eq_true,
      if_true, not_true_eq_false, if_false] at hfail hl2 ⊢
    obtain ⟨tail, hs, ht1 | ht1⟩ := late_init_from_job_slot_unwinds o _ hfail hl2 <;>
      · rw [hs, ht1]
        rfl

theorem late_init_success_path (cfg : Config) (CONFIG_MALI_DEBUG : Bool) (o : LateOutcomes)
    (tr : List BackendCall) (h : (kbase_backend_late_init cfg CONFIG_MALI_DEBUG o tr).1 = 0) :
    (o.kbase_hwaccess_pm_init = 0 ∧ o.kbase_reset_gpu_init = 0 ∧
      o.kbase_hwaccess_pm_powerup = 0 ∧ o.kbase_backend_timer_init = 0 ∧
      o.kbase_job_slot_init = 0 ∧ o.kbase_backend_devfreq_init = 0 ∧
      o.kbase_gpuprops_update_l2_features = 0) ∧
    (kbase_backend_late_init cfg CONFIG_MALI_DEBUG o tr).2 =
      tr ++ ([BackendCall.kbase_hwaccess_pm_init, BackendCall.kbase_reset_gpu_init,
        BackendCall.kbase_hwaccess_pm_powerup, BackendCall.kbase_backend_timer_init] ++
      (if CONFIG_MALI_DEBUG = true ∧ cfg.CONFIG_MALI_NO_MALI = false then
        [BackendCall.kbasep_common_test_interrupt_handlers] else []) ++
      [BackendCall.kbase_job_slot_init, BackendCall.kbase_backend_devfreq_init,
        BackendCall.kbase_pm_context_idle, BackendCall.kbase_gpuprops_update_l2_features,
        BackendCall.init_waitqueue_head]) := by
  by_cases h1 : o.kbase_hwaccess_pm_init = 0
  swap
  · exact absurd h (by simp [kbase_backend_late_init, h1])
  by_cases h2 : o.kbase_reset_gpu_init = 0
  swap
  · exact absurd h (by simp [kbase_backend_late_init, h1, h2])
  by_cases h3 : o.kbase_hwaccess_pm_powerup = 0
  swap
  · exact absurd h (by simp [kbase_backend_late_init, h1, h2, h3])
  by_cases h4 : o.kbase_backend_timer_init = 0
  swap
  · exact absurd h (by simp [kbase_backend_late_init, h1, h2, h3, h4])
  by_cases hd : CONFIG_MALI_DEBUG = true ∧ cfg.CONFIG_MALI_NO_MALI = false
  · by_cases ht : o.kbasep_common_test_interrupt_handlers = 0
    · simp only [kbase_backend_late_init, h1, h2, h3, h4, hd, ht, ne_eq, not_false_eq_true,
        if_true, not_true_eq_false, if_false, and_self] at h ⊢
      obtain ⟨⟨h5, h6, h7⟩, hs⟩ := late_init_from_job_slot_success o _ h
      exact ⟨⟨trivial, trivial, trivial, trivial, h5, h6, h7⟩, by rw [hs]; simp⟩
    · exact absurd h (by simp [kbase_backend_late_init, h1, h2, h3, h4, hd, ht, EINVAL])
  · simp only [kbase_backend_late_init, h1, h2, h3, h4, hd, ne_eq, not_false_eq_true,
      if_true, not_true_eq_false, if_false] at h ⊢
    obtain ⟨⟨h5, h6, h7⟩, hs⟩ := late_init_from_job_slot_success o _ h
    exact ⟨⟨trivial, trivial, trivial, trivial, h5, h6, h7⟩, by rw [hs]; simp⟩

/-! ## The claims -/

/-- C9 (unwind contract): for every build of the table and every `i` up to its size,
`kbase_device_term_partial(kbdev, i)` returns; its loop runs its body exactly `i` times
(`i` executions are enough and no smaller number is); the calls it makes are the `term`
calls of exactly the indices below `i` whose `term` is not `NULL`, each once, in strictly
descending order; for `i = 0` it makes no call. -/
theorem term_partial_unwind_contract (cfg : Config) (i : Nat) (tr : List Call)
    (hi : i ≤ (dev_init cfg).length) :
    ∃ calls, kbase_device_term_partial (dev_init cfg) i tr = .ok (tr ++ calls) ∧
      term_partial_loop (dev_init cfg) i i tr = .ok (tr ++ calls) ∧
      (∀ fuel, fuel < i → term_partial_loop (dev_init cfg) fuel i tr = .error .out_of_fuel) ∧
      calls = ((List.range i).reverse.filter (has_term (dev_init cfg))).map Call.term ∧
      (∀ j, Call.term j ∈ calls ↔ j < i ∧ has_term (dev_init cfg) j = true) ∧
      (∀ j, j < i → has_term (dev_init cfg) j = true → calls.count (Call.term j) = 1) ∧
      (term_calls calls).Pairwise (fun a b => a > b) ∧
      (i = 0 → calls = []) := by
  refine ⟨(unwind_order (dev_init cfg) i).map Call.term,
    kbase_device_term_partial_ok _ i tr hi, term_partial_loop_ok _ i tr hi,
    fun fuel h => term_partial_loop_out_of_fuel _ fuel i tr h hi, rfl, ?_, ?_, ?_, ?_⟩
  · intro j
    rw [← mem_term_calls, term_calls_map_term, mem_unwind_order]
  · intro j hj ht
    apply List.count_eq_one_of_mem
    · exact ((unwind_order_descending _ i).imp (fun h => Nat.ne_of_gt h)).map Call.term
        (fun a b hab h => hab (Call.term.inj h))
    · exact List.mem_map.mpr ⟨j, (mem_unwind_order _ i j).mpr ⟨hj, ht⟩, rfl⟩
  · rw [term_calls_map_term]
    exact unwind_order_descending _ i
  · intro h0
    subst h0
    rfl

/-- Witness of C9: unwinding the first five stages of the hardware build calls `term` for
stages 4, 3, 2 and 1 (stage 0, `assign_irqs`, has no `term`). -/
theorem term_partial_unwind_contract_witness :
    5 ≤ (dev_init cfg_hw).length ∧
    kbase_device_term_partial (dev_init cfg_hw) 5 [] =
      .ok [Call.term 4, Call.term 3, Call.term 2, Call.term 1] := by
  obtain ⟨calls, h, -, -, hc, -⟩ := term_partial_unwind_contract cfg_hw 5 [] (by decide)
  refine ⟨by decide, ?_⟩
  rw [h, hc]
  rfl

/-- C8 (full shutdown shape): whatever was called on the device before, `kbase_device_term`
makes the calls of `kbase_device_term_partial(kbdev, ARRAY_SIZE(dev_init))`, which are the
`term` of every stage whose `term` is not `NULL` in descending index order, and then
`kbasep_js_devdata_halt` and `kbase_mem_halt`, each once. -/
theorem full_shutdown_shape (cfg : Config) (tr : List Call) :
    ∃ unwound,
      kbase_device_term_partial (dev_init cfg) (dev_init cfg).length tr = .ok (tr ++ unwound) ∧
      unwound = ((List.range (dev_init cfg).length).reverse.filter
        (has_term (dev_init cfg))).map Call.term ∧
      kbase_device_term (dev_init cfg) tr =
        .ok (tr ++ (unwound ++ [Call.kbasep_js_devdata_halt, Call.kbase_mem_halt])) ∧
      (unwound ++ [Call.kbasep_js_devdata_halt, Call.kbase_mem_halt]).count
        Call.kbasep_js_devdata_halt = 1 ∧
      (unwound ++ [Call.kbasep_js_devdata_halt, Call.kbase_mem_halt]).count
        Call.kbase_mem_halt = 1 := by
  refine ⟨(unwind_order (dev_init cfg) (dev_init cfg).length).map Call.term,
    kbase_device_term_partial_ok _ _ tr (le_refl _), rfl,
    kbase_device_term_ok _ tr (dev_init_length_lt cfg), ?_, ?_⟩
  · rw [List.count_append, List.count_eq_zero_of_not_mem]
    · rfl
    · intro h
      obtain ⟨j, -, hj⟩ := List.mem_map.mp h
      cases hj
  · rw [List.count_append, List.count_eq_zero_of_not_mem]
    · rfl
    · intro h
      obtain ⟨j, -, hj⟩ := List.mem_map.mp h
      cases hj

/-- C1 (prefix unwind): for every build of the table and every assignment of outcomes in
which stage `k` is the first whose `init` returns a non-zero error, `kbase_device_init`
returns, and the `term` calls it makes are those of the stages below `k` whose `term` is
not `NULL`, each exactly once, in strictly descending index order; it calls no `term` of a
stage with index `k` or more. -/
theorem prefix_unwind (cfg : Config) (o : Outcomes) (tr : List Call) (k : Nat)
    (hk : k < (dev_init cfg).length) (hok : ∀ j, j < k → o.init_ret j = 0)
    (hfail : o.init_ret k ≠ 0) :
    ∃ err calls, kbase_device_init (dev_init cfg) o tr = .ok (err, tr ++ calls) ∧
      term_calls calls = (List.range k).reverse.filter (has_term (dev_init cfg)) ∧
      (∀ j, Call.term j ∈ calls ↔ j < k ∧ has_term (dev_init cfg) j = true) ∧
      (∀ j, j < k → has_term (dev_init cfg) j = true → (term_calls calls).count j = 1) ∧
      (term_calls calls).Pairwise (fun a b => a > b) ∧
      (∀ j, k ≤ j → Call.term j ∉ calls) := by
  refine ⟨_, _, kbase_device_init_first_fail _ o (dev_init_table_ok cfg) tr k hk hok hfail,
    ?_, ?_, ?_, ?_, ?_⟩
  · rw [term_calls_fail_trace]
    rfl
  · intro j
    rw [← mem_term_calls, term_calls_fail_trace, mem_unwind_order]
  · intro j hj ht
    rw [term_calls_fail_trace]
    exact count_eq_one_of_descending _ j (unwind_order_descending _ k)
      ((mem_unwind_order _ k j).mpr ⟨hj, ht⟩)
  · rw [term_calls_fail_trace]
    exact unwind_order_descending _ k
  · intro j hj h
    rw [← mem_term_calls, term_calls_fail_trace, mem_unwind_order] at h
    omega

/-- Witness of C1: in the hardware build, when `kbase_device_early_init` (stage 4) is the
first stage to fail, the `term` calls of the run are those of stages 3, 2 and 1. -/
theorem prefix_unwind_witness :
    ∃ err calls, kbase_device_init (dev_init cfg_hw) (o_stage_fails 4) [] = .ok (err, calls) ∧
      term_calls calls = [3, 2, 1] := by
  obtain ⟨err, calls, h, ht, -⟩ :=
    prefix_unwind cfg_hw (o_stage_fails 4) [] 4 (by decide) (by decide) (by decide)
  exact ⟨err, calls, h, by rw [ht]; decide⟩

/-- C5 (init ordering and stop at first failure): in every run of `kbase_device_init`, for
every build of the table, the `init` calls are those of stages `0, 1, ..., m - 1` in this
order for some `m` up to the size of the table, each at most once; whenever `init` of stage
`i` is called, the `init` of every stage below `i` has been called before and returned
success; and when stage `k` is the first to fail, neither `init` nor `term` of a stage
above `k` is called. -/
theorem init_order_stop_at_first_failure (cfg : Config) (o : Outcomes) (tr : List Call) :
    ∃ err calls m, kbase_device_init (dev_init cfg) o tr = .ok (err, tr ++ calls) ∧
      m ≤ (dev_init cfg).length ∧
      init_calls calls = List.range m ∧
      (∀ i, (init_calls calls).count i ≤ 1) ∧
      (∀ pre post i, calls = pre ++ Call.init i :: post →
        ∀ j, j < i → Call.init j ∈ pre ∧ o.init_ret j = 0) ∧
      (∀ k, k < (dev_init cfg).length → (∀ j, j < k → o.init_ret j = 0) →
        o.init_ret k ≠ 0 → ∀ j, k < j → Call.init j ∉ calls ∧ Call.term j ∉ calls) := by
  rcases first_fail_cases o.init_ret (dev_init cfg).length with hall | ⟨k0, hk0, hok, hfail⟩
  · refine ⟨_, _, (dev_init cfg).length,
      kbase_device_init_all_ok _ o (dev_init_table_ok cfg) tr hall, le_refl _,
      init_calls_ok_trace o _, ?_, ?_, ?_⟩
    · intro i
      rw [init_calls_ok_trace]
      exact count_range_le_one _ i
    · intro pre post i hs j hj
      obtain ⟨hi, hpre⟩ := init_before_of_range _ pre post _ i (init_calls_ok_trace o _) hs
      exact ⟨hpre j hj, hall j (by omega)⟩
    · intro k hk _ hfail
      exact absurd (hall k hk) hfail
  · refine ⟨_, _, k0 + 1,
      kbase_device_init_first_fail _ o (dev_init_table_ok cfg) tr k0 hk0 hok hfail, hk0,
      init_calls_fail_trace _ o k0 _ _, ?_, ?_, ?_⟩
    · intro i
      rw [init_calls_fail_trace]
      exact count_range_le_one _ i
    · intro pre post i hs j hj
      obtain ⟨hi, hpre⟩ :=
        init_before_of_range _ pre post _ i (init_calls_fail_trace _ o k0 _ _) hs
      exact ⟨hpre j hj, hok j (by omega)⟩
    · intro k _ hok2 hfail2 j hj
      have hkk : k = k0 := by
        rcases Nat.lt_trichotomy k k0 with h | h | h
        · exact absurd (hok k h) hfail2
        · exact h
        · exact absurd (hok2 k0 h) hfail
      subst hkk
      constructor
      · rw [← mem_init_calls, init_calls_fail_trace, List.mem_range]
        omega
      · rw [← mem_term_calls, term_calls_fail_trace, mem_unwind_order]
        omega

/-- Instance of C5: in the hardware build, when `kbase_device_pm_init` (stage 3) is the
first stage to fail, the `init` calls of the run are those of stages 0 to 3, and neither
`init` nor `term` of stage 4 is called. -/
theorem init_order_stop_at_first_failure_witness :
    ∃ err calls, kbase_device_init (dev_init cfg_hw) (o_stage_fails 3) [] = .ok (err, calls) ∧
      init_calls calls = [0, 1, 2, 3] ∧ Call.init 4 ∉ calls ∧ Call.term 4 ∉ calls := by
  obtain ⟨err, calls, m, h, -, hm, -, -, hstop⟩ :=
    init_order_stop_at_first_failure cfg_hw (o_stage_fails 3) []
  have h4 := hstop 3 (by decide) (by decide) (by decide) 4 (by decide)
  have hc : init_calls calls = [0, 1, 2, 3] := by
    have h2 : kbase_device_init (dev_init cfg_hw) (o_stage_fails 3) [] = .ok (err, calls) := h
    have h3 : kbase_device_init (dev_init cfg_hw) (o_stage_fails 3) [] =
        .ok (-22, [Call.dev_info "Kernel DDK version %s", Call.kbase_device_id_init,
          Call.kbase_disjoint_init, Call.init 0, Call.init 1, Call.init 2, Call.init 3,
          Call.dev_err "Power management initialization failed" (-22),
          Call.term 2, Call.term 1,
          Call.kthread_init_worker "job_done_worker", Call.kthread_run "mali_jd_thread",
          Call.sched_setscheduler "mali_jd_thread" 60,
          Call.dev_info "mali_jd_thread set to RT prio: %i",
          Call.kthread_init_worker "event_worker", Call.kthread_run "mali_event_thread"]) := by
      rfl
    rw [h3] at h2
    cases h2
    rfl
  exact ⟨err, calls, h, hc, h4.1, h4.2⟩

/-- C10 (full-success clean path): for every build of the table, if every stage `init`
returns success then `kbase_device_init` returns, calls no `term`, and calls the `init` of
every stage exactly once, in table order; if in addition both worker threads are created,
the value it returns is 0. -/
theorem full_success_clean_path (cfg : Config) (o : Outcomes) (tr : List Call)
    (hall : ∀ j, j < (dev_init cfg).length → o.init_ret j = 0) :
    ∃ err calls, kbase_device_init (dev_init cfg) o tr = .ok (err, tr ++ calls) ∧
      (∀ j, Call.term j ∉ calls) ∧
      init_calls calls = List.range (dev_init cfg).length ∧
      (∀ j, j < (dev_init cfg).length → calls.count (Call.init j) = 1) ∧
      (o.jd_thread_IS_ERR = false → o.event_thread_IS_ERR = false → err = 0) := by
  refine ⟨_, _, kbase_device_init_all_ok _ o (dev_init_table_ok cfg) tr hall, ?_,
    init_calls_ok_trace o _, ?_, ?_⟩
  · intro j h
    rw [← mem_term_calls, term_calls_ok_trace] at h
    exact absurd h (List.not_mem_nil j)
  · intro j hj
    rw [← count_init_calls, init_calls_ok_trace]
    exact List.count_eq_one_of_mem (List.nodup_range _) (List.mem_range.mpr hj)
  · intro h1 h2
    simp [worker_ret, h1, h2]

/-- Witness of C10: the hardware build with every external call succeeding returns 0 and
calls the 26 inits in order. -/
theorem full_success_clean_path_witness :
    ∃ calls, kbase_device_init (dev_init cfg_hw) o_all_ok [] = .ok (0, calls) ∧
      init_calls calls = List.range 26 ∧ term_calls calls = [] := by
  obtain ⟨err, calls, h, ht, hi, -, h0⟩ :=
    full_success_clean_path cfg_hw o_all_ok [] (fun _ _ => rfl)
  have he : err = 0 := h0 rfl rfl
  subst he
  refine ⟨calls, h, hi, ?_⟩
  cases hc : term_calls calls with
  | nil => rfl
  | cons a l =>
    exact absurd ((mem_term_calls calls a).mp (by rw [hc]; exact List.mem_cons_self a l)) (ht a)

/-- C2, the code at the failing input: in the hardware build, when `assign_irqs` (stage 0)
fails with `-EINVAL` and every later call succeeds, `kbase_device_init` reports the error,
leaves the loop, and goes on to create both worker threads. -/
theorem worker_bootstrap_after_stage_failure :
    kbase_device_init (dev_init cfg_hw) (o_stage_fails 0) [] =
      .ok (-22, [Call.dev_info "Kernel DDK version %s", Call.kbase_device_id_init,
        Call.kbase_disjoint_init, Call.init 0, Call.dev_err "IRQ search failed" (-22),
        Call.kthread_init_worker "job_done_worker", Call.kthread_run "mali_jd_thread",
        Call.sched_setscheduler "mali_jd_thread" 60,
        Call.dev_info "mali_jd_thread set to RT prio: %i",
        Call.kthread_init_worker "event_worker", Call.kthread_run "mali_event_thread"]) := by
  rfl

/-- C3, the code at the failing input: in the hardware build, when every stage succeeds and
`kthread_run` fails for the job-done worker, `kbase_device_init` returns `err`, which is 0. -/
theorem jd_thread_failure_returns_zero :
    kbase_device_init (dev_init cfg_hw) o_jd_thread_fails [] =
      .ok (0, [Call.dev_info "Kernel DDK version %s", Call.kbase_device_id_init,
        Call.kbase_disjoint_init] ++ (List.range 26).map Call.init ++
        [Call.kthread_init_worker "job_done_worker", Call.kthread_run "mali_jd_thread"]) := by
  rfl

/-- C4, the code at the failing input: in the hardware build, when `assign_irqs` (stage 0)
fails with `-EINVAL`, the job-done worker is created and `kthread_run` fails for the event
worker, `kbase_device_init` returns `-ENOMEM` (-12), not the stage's `-EINVAL` (-22). -/
theorem stage_error_overwritten_by_enomem :
    (o_stage_and_event_thread_fail 0).init_ret 0 = -22 ∧
    kbase_device_init (dev_init cfg_hw) (o_stage_and_event_thread_fail 0) [] =
      .ok (-12, [Call.dev_info "Kernel DDK version %s", Call.kbase_device_id_init,
        Call.kbase_disjoint_init, Call.init 0, Call.dev_err "IRQ search failed" (-22),
        Call.kthread_init_worker "job_done_worker", Call.kthread_run "mali_jd_thread",
        Call.sched_setscheduler "mali_jd_thread" 60,
        Call.dev_info "mali_jd_thread set to RT prio: %i",
        Call.kthread_init_worker "event_worker", Call.kthread_run "mali_event_thread"]) := by
  exact ⟨rfl, rfl⟩

/-- C6 as stated fails: in the hardware build, when `kbase_device_io_history_init` (stage 2)
is the first stage to fail, `kbase_device_init` unwinds stage 1 (`registers_unmap`) and
`kbase_device_term` afterwards calls `registers_unmap` a second time. -/
theorem double_teardown_after_failed_bringup :
    ∃ err calls, init_then_term (dev_init cfg_hw) (o_stage_fails 2) [] = .ok (err, calls) ∧
      calls.count (Call.term 1) = 2 :=
  ⟨_, _, rfl, by decide⟩

/-- C6, amended: for every build of the table and every assignment of outcomes,
`kbase_device_init` on its own calls no stage's `term` more than once, `kbase_device_term`
on its own calls no stage's `term` more than once, and in a cycle of `kbase_device_init`
followed by `kbase_device_term` in which every stage `init` returned success no stage's
`term` is called more than once. -/
theorem no_double_teardown_when_fully_up (cfg : Config) (o : Outcomes) (tr : List Call) :
    (∃ err calls, kbase_device_init (dev_init cfg) o tr = .ok (err, tr ++ calls) ∧
      ∀ j, calls.count (Call.term j) ≤ 1) ∧
    (∃ calls, kbase_device_term (dev_init cfg) tr = .ok (tr ++ calls) ∧
      ∀ j, calls.count (Call.term j) ≤ 1) ∧
    ((∀ j, j < (dev_init cfg).length → o.init_ret j = 0) →
      ∃ err calls, init_then_term (dev_init cfg) o tr = .ok (err, tr ++ calls) ∧
        ∀ j, calls.count (Call.term j) ≤ 1) := by
  refine ⟨?_, ⟨_, kbase_device_term_ok _ tr (dev_init_length_lt cfg), ?_⟩, ?_⟩
  · rcases first_fail_cases o.init_ret (dev_init cfg).length with hall | ⟨k, hk, hok, hfail⟩
    · refine ⟨_, _, kbase_device_init_all_ok _ o (dev_init_table_ok cfg) tr hall, ?_⟩
      intro j
      rw [← count_term_calls, term_calls_ok_trace]
      exact Nat.zero_le 1
    · refine ⟨_, _, kbase_device_init_first_fail _ o (dev_init_table_ok cfg) tr k hk hok hfail,
        ?_⟩
      intro j
      rw [← count_term_calls, term_calls_fail_trace]
      exact count_unwind_order_le_one _ k j
  · intro j
    rw [← count_term_calls, term_calls_shutdown]
    exact count_unwind_order_le_one _ _ j
  · intro hall
    refine ⟨_, _, init_then_term_ok _ o tr _ _ (dev_init_length_lt cfg)
      (kbase_device_init_all_ok _ o (dev_init_table_ok cfg) tr hall), ?_⟩
    intro j
    rw [← count_term_calls, term_calls_append, term_calls_ok_trace, term_calls_shutdown,
      List.nil_append]
    exact count_unwind_order_le_one _ _ j

/-- Witness of amended C6: in the hardware build with every external call succeeding, the
cycle calls `registers_unmap` (the `term` of stage 1) exactly once. -/
theorem no_double_teardown_when_fully_up_witness :
    ∃ err calls, init_then_term (dev_init cfg_hw) o_all_ok [] = .ok (err, calls) ∧
      calls.count (Call.term 1) ≤ 1 ∧ Call.term 1 ∈ calls := by
  obtain ⟨err, calls, h, hc⟩ :=
    (no_double_teardown_when_fully_up cfg_hw o_all_ok []).2.2 (fun _ _ => rfl)
  refine ⟨err, calls, h, hc 1, ?_⟩
  have h2 : init_then_term (dev_init cfg_hw) o_all_ok [] = .ok (err, calls) := h
  have h3 : ∃ e c, init_then_term (dev_init cfg_hw) o_all_ok [] = .ok (e, c) ∧ Call.term 1 ∈ c :=
    ⟨_, _, rfl, by decide⟩
  obtain ⟨e, c, h4, h5⟩ := h3
  rw [h4] at h2
  cases h2
  exact h5

/-- C7 as stated fails: in the hardware build, when `registers_map` (stage 1) is the first
stage to fail, the cycle of `kbase_device_init` and `kbase_device_term` calls the `term` of
stage 1, whose `init` failed, and the `term` of stage 2, whose `init` is never called. -/
theorem teardown_of_uninitialised_stage :
    ∃ err calls, init_then_term (dev_init cfg_hw) (o_stage_fails 1) [] = .ok (err, calls) ∧
      (o_stage_fails 1).init_ret 1 ≠ 0 ∧ Call.term 1 ∈ calls ∧
      Call.init 2 ∉ calls ∧ Call.term 2 ∈ calls :=
  ⟨_, _, rfl, by decide, by decide, by decide, by decide⟩

/-- C7, amended: for every build of the table and every assignment of outcomes, whenever
`kbase_device_init` calls the `term` of stage `i`, the `init` of stage `i` was called
earlier in that run and returned success; and in a cycle of `kbase_device_init` followed by
`kbase_device_term` in which every stage `init` returned success, whenever the `term` of
stage `i` is called, the `init` of stage `i` was called earlier and returned success. -/
theorem term_only_after_successful_init (cfg : Config) (o : Outcomes) (tr : List Call) :
    (∃ err calls, kbase_device_init (dev_init cfg) o tr = .ok (err, tr ++ calls) ∧
      ∀ pre post i, calls = pre ++ Call.term i :: post →
        Call.init i ∈ pre ∧ o.init_ret i = 0) ∧
    ((∀ j, j < (dev_init cfg).length → o.init_ret j = 0) →
      ∃ err calls, init_then_term (dev_init cfg) o tr = .ok (err, tr ++ calls) ∧
        ∀ pre post i, calls = pre ++ Call.term i :: post →
          Call.init i ∈ pre ∧ o.init_ret i = 0) := by
  constructor
  · rcases first_fail_cases o.init_ret (dev_init cfg).length with hall | ⟨k, hk, hok, hfail⟩
    · refine ⟨_, _, kbase_device_init_all_ok _ o (dev_init_table_ok cfg) tr hall, ?_⟩
      intro pre post i hs
      have hmem : Call.term i ∈
          prologue_calls ++ (List.range (dev_init cfg).length).map Call.init
            ++ worker_calls o := by
        rw [hs]
        simp
      exact absurd hmem (no_term_in_bringup _ _ (no_term_in_worker_calls o) i)
    · refine ⟨_, _, kbase_device_init_first_fail _ o (dev_init_table_ok cfg) tr k hk hok hfail,
        ?_⟩
      intro pre post i hs
      have hA : ∀ j, Call.term j ∉ prologue_calls ++ (List.range (k + 1)).map Call.init
          ++ [Call.dev_err (err_mes_at (dev_init cfg) k) (o.init_ret k)] :=
        no_term_in_bringup _ _ (fun j h => by simp at h)
      obtain ⟨hpre, hB⟩ := term_split _
        ((unwind_order (dev_init cfg) k).map Call.term ++ worker_calls o) pre post i hA
        (by rw [← hs]; simp only [List.append_assoc])
      have hi : i < k := by
        rw [← mem_term_calls, term_calls_append, term_calls_map_term,
          term_calls_worker_calls, List.append_nil, mem_unwind_order] at hB
        exact hB.1
      exact ⟨hpre _ (init_mem_bringup _ i _ (by omega)), hok i hi⟩
  · intro hall
    refine ⟨_, _, init_then_term_ok _ o tr _ _ (dev_init_length_lt cfg)
      (kbase_device_init_all_ok _ o (dev_init_table_ok cfg) tr hall), ?_⟩
    intro pre post i hs
    obtain ⟨hpre, hB⟩ := term_split _ _ pre post i
      (no_term_in_bringup _ _ (no_term_in_worker_calls o)) hs
    have hi : i < (dev_init cfg).length := by
      rw [← mem_term_calls, term_calls_shutdown, mem_unwind_order] at hB
      exact hB.1
    exact ⟨hpre _ (init_mem_bringup _ i _ hi), hall i hi⟩

/-- Witness of amended C7: in the hardware build with every external call succeeding, the
cycle returns 0 and every `term` call it makes follows the `init` of the same stage. -/
theorem term_only_after_successful_init_witness :
    ∃ calls, init_then_term (dev_init cfg_hw) o_all_ok [] = .ok (0, calls) ∧
      ∀ pre post i, calls = pre ++ Call.term i :: post → Call.init i ∈ pre := by
  obtain ⟨err, calls, h, hc⟩ :=
    (term_only_after_successful_init cfg_hw o_all_ok []).2 (fun _ _ => rfl)
  have h2 : init_then_term (dev_init cfg_hw) o_all_ok [] = .ok (err, calls) := h
  have h3 : ∃ c, init_then_term (dev_init cfg_hw) o_all_ok [] = .ok (0, c) := ⟨_, rfl⟩
  obtain ⟨c, h4⟩ := h3
  rw [h4] at h2
  cases h2
  exact ⟨_, h4, fun pre post i hs => (hc pre post i hs).1⟩

/-- C11 (priority failure is non-fatal): for every build of the table, when every stage
`init` succeeds and both worker threads are created, `kbase_device_init` returns 0 whether
`sched_setscheduler` succeeds or fails, and calls no `term`; when `sched_setscheduler`
fails, exactly one warning is emitted and `kthread_run` for `mali_event_thread` is called
after it; when it succeeds, no warning is emitted. -/
theorem priority_failure_is_not_fatal (cfg : Config) (o : Outcomes) (tr : List Call)
    (hall : ∀ j, j < (dev_init cfg).length → o.init_ret j = 0)
    (hjd : o.jd_thread_IS_ERR = false) (hev : o.event_thread_IS_ERR = false) :
    ∃ calls, kbase_device_init (dev_init cfg) o tr = .ok (0, tr ++ calls) ∧
      (∀ j, Call.term j ∉ calls) ∧
      (o.sched_setscheduler_ret = 0 → warnings calls = []) ∧
      (o.sched_setscheduler_ret ≠ 0 →
        warnings calls = ["mali_jd_thread not set to RT prio"] ∧
        ∃ pre post, calls = pre ++ Call.dev_warn "mali_jd_thread not set to RT prio" :: post ∧
          Call.kthread_run "mali_event_thread" ∈ post) := by
  have h := kbase_device_init_all_ok _ o (dev_init_table_ok cfg) tr hall
  have hret : worker_ret o 0 = 0 := by simp [worker_ret, hjd, hev]
  rw [hret] at h
  refine ⟨_, h, no_term_in_bringup _ _ (no_term_in_worker_calls o), ?_, ?_⟩
  · intro hs
    rw [warnings_append, warnings_append, warnings_map_init]
    simp [warnings, prologue_calls, worker_calls, hjd, hs]
  · intro hs
    constructor
    · rw [warnings_append, warnings_append, warnings_map_init]
      simp [warnings, prologue_calls, worker_calls, hjd, hs]
    · refine ⟨prologue_calls ++ (List.range (dev_init cfg).length).map Call.init ++
          [Call.kthread_init_worker "job_done_worker", Call.kthread_run "mali_jd_thread",
            Call.sched_setscheduler "mali_jd_thread" MALI_JD_THREAD_RT_PRIORITY],
        [Call.kthread_init_worker "event_worker", Call.kthread_run "mali_event_thread"],
        ?_, by simp⟩
      simp [worker_calls, hjd, hs]

/-- Witness of C11: in the hardware build, with every stage succeeding, both workers created
and `sched_setscheduler` failing, `kbase_device_init` returns 0 with exactly one warning. -/
theorem priority_failure_is_not_fatal_witness :
    ∃ calls, kbase_device_init (dev_init cfg_hw) o_priority_fails [] = .ok (0, calls) ∧
      warnings calls = ["mali_jd_thread not set to RT prio"] := by
  obtain ⟨calls, h, -, -, hw⟩ :=
    priority_failure_is_not_fatal cfg_hw o_priority_fails [] (fun _ _ => rfl) rfl rfl
  exact ⟨calls, h, (hw (by decide)).1⟩

/-- C12 (no unwind on primary worker failure): for every build of the table, when every
stage `init` succeeds and `kthread_run` fails for the job-done worker, `kbase_device_init`
returns right after that `kthread_run`: it calls no stage's `term`, does not call
`sched_setscheduler`, and neither initialises nor creates the event worker. -/
theorem no_unwind_on_jd_thread_failure (cfg : Config) (o : Outcomes) (tr : List Call)
    (hall : ∀ j, j < (dev_init cfg).length → o.init_ret j = 0)
    (hjd : o.jd_thread_IS_ERR = true) :
    ∃ err calls, kbase_device_init (dev_init cfg) o tr = .ok (err, tr ++ calls) ∧
      calls = [Call.dev_info "Kernel DDK version %s", Call.kbase_device_id_init,
          Call.kbase_disjoint_init] ++ (List.range (dev_init cfg).length).map Call.init ++
        [Call.kthread_init_worker "job_done_worker", Call.kthread_run "mali_jd_thread"] ∧
      (∀ j, Call.term j ∉ calls) ∧
      (∀ t p, Call.sched_setscheduler t p ∉ calls) ∧
      Call.kthread_init_worker "event_worker" ∉ calls ∧
      Call.kthread_run "mali_event_thread" ∉ calls := by
  have hw : worker_calls o =
      [Call.kthread_init_worker "job_done_worker", Call.kthread_run "mali_jd_thread"] := by
    simp [worker_calls, hjd]
  refine ⟨_, _, kbase_device_init_all_ok _ o (dev_init_table_ok cfg) tr hall, ?_,
    no_term_in_bringup _ _ (no_term_in_worker_calls o), ?_, ?_, ?_⟩
  · rw [hw]
    rfl
  · intro t p
    rw [hw]
    simp [prologue_calls]
  · rw [hw]
    simp [prologue_calls]
  · rw [hw]
    simp [prologue_calls]

/-- Witness of C12: in the hardware build, with every stage succeeding and the job-done
worker not created, the last call of `kbase_device_init` is the failed `kthread_run`. -/
theorem no_unwind_on_jd_thread_failure_witness :
    ∃ err calls, kbase_device_init (dev_init cfg_hw) o_jd_thread_fails [] = .ok (err, calls) ∧
      calls.getLast? = some (Call.kthread_run "mali_jd_thread") ∧
      term_calls calls = [] := by
  obtain ⟨err, calls, h, hc, -⟩ :=
    no_unwind_on_jd_thread_failure cfg_hw o_jd_thread_fails [] (fun _ _ => rfl) rfl
  refine ⟨err, calls, h, ?_, ?_⟩
  · rw [hc]
    decide
  · rw [hc]
    decide

/-- C13 (secondary worker failure): for every build of the table, when every stage `init`
succeeds, the job-done worker is created and `kthread_run` fails for the event worker,
`kbase_device_init` returns `-ENOMEM`, which is not 0, and calls no stage's `term`,
whatever `sched_setscheduler` returned. -/
theorem event_thread_failure_returns_enomem (cfg : Config) (o : Outcomes) (tr : List Call)
    (hall : ∀ j, j < (dev_init cfg).length → o.init_ret j = 0)
    (hjd : o.jd_thread_IS_ERR = false) (hev : o.event_thread_IS_ERR = true) :
    ∃ calls, kbase_device_init (dev_init cfg) o tr = .ok (-ENOMEM, tr ++ calls) ∧
      -ENOMEM ≠ 0 ∧
      (∀ j, Call.term j ∉ calls) ∧
      Call.kthread_run "mali_event_thread" ∈ calls := by
  have h := kbase_device_init_all_ok _ o (dev_init_table_ok cfg) tr hall
  have hret : worker_ret o 0 = -ENOMEM := by simp [worker_ret, hjd, hev]
  rw [hret] at h
  refine ⟨_, h, by decide, no_term_in_bringup _ _ (no_term_in_worker_calls o), ?_⟩
  simp [worker_calls, hjd]

/-- Witness of C13: in the hardware build, with every stage succeeding and only the event
worker not created, `kbase_device_init` returns -12 and calls no `term`. -/
theorem event_thread_failure_returns_enomem_witness :
    ∃ calls, kbase_device_init (dev_init cfg_hw) o_event_thread_fails [] = .ok (-12, calls) ∧
      ∀ j, Call.term j ∉ calls := by
  obtain ⟨calls, h, -, ht, -⟩ :=
    event_thread_failure_returns_enomem cfg_hw o_event_thread_fails [] (fun _ _ => rfl) rfl rfl
  exact ⟨calls, h, ht⟩

/-- C16 (a stage failure is never masked): in every run of `kbase_device_init`, for every
build of the table and every outcome of the two `kthread_run` calls and of
`sched_setscheduler`: if some stage's `init` returns a non-zero error, the value returned is
not 0; and if the value returned is 0, every stage's `init` returned success. -/
theorem stage_failure_never_masked (cfg : Config) (o : Outcomes) (tr : List Call) :
    ∃ err calls, kbase_device_init (dev_init cfg) o tr = .ok (err, tr ++ calls) ∧
      ((∃ j, j < (dev_init cfg).length ∧ o.init_ret j ≠ 0) → err ≠ 0) ∧
      (err = 0 → ∀ j, j < (dev_init cfg).length → o.init_ret j = 0) := by
  rcases first_fail_cases o.init_ret (dev_init cfg).length with hall | ⟨k, hk, hok, hfail⟩
  · refine ⟨_, _, kbase_device_init_all_ok _ o (dev_init_table_ok cfg) tr hall, ?_, ?_⟩
    · rintro ⟨j, hj, hne⟩
      exact absurd (hall j hj) hne
    · intro _
      exact hall
  · refine ⟨_, _, kbase_device_init_first_fail _ o (dev_init_table_ok cfg) tr k hk hok hfail,
      ?_, ?_⟩
    · intro _
      exact worker_ret_ne_zero o _ hfail
    · intro h0
      exact absurd h0 (worker_ret_ne_zero o _ hfail)

/-- Instance of C16: in the hardware build, when the last stage (`kbase_dummy_job_wa_load`,
stage 25) fails and the event worker cannot be created, the value returned is not 0. -/
theorem stage_failure_never_masked_witness :
    ∃ err calls, kbase_device_init (dev_init cfg_hw) (o_stage_and_event_thread_fail 25) []
        = .ok (err, calls) ∧ err ≠ 0 := by
  obtain ⟨err, calls, h, hne, -⟩ :=
    stage_failure_never_masked cfg_hw (o_stage_and_event_thread_fail 25) []
  exact ⟨err, calls, h, hne ⟨25, by decide, by decide⟩⟩

/-- C18 (table access in bounds, every init callable): for every build of the table, every
entry of `dev_init` has a non-`NULL` `init`; `kbase_device_init` and `kbase_device_term`
never read `dev_init` out of range and never call through `NULL`, that is, they return a
result and no fault, for every assignment of outcomes; `kbase_device_term_partial` returns
a result for every argument up to `ARRAY_SIZE(dev_init)`, and `ARRAY_SIZE(dev_init)` fits
its `unsigned int` parameter.  The out-of-range branch of the embedding is a real one: the
argument `ARRAY_SIZE(dev_init) + 1` reaches it. -/
theorem table_access_in_bounds (cfg : Config) :
    (∀ e, e ∈ dev_init cfg → e.init.isSome = true) ∧
    (∀ i, i < (dev_init cfg).length →
      ∃ e, (dev_init cfg)[i]? = some e ∧ e.init.isSome = true) ∧
    (∀ o tr, ∃ r, kbase_device_init (dev_init cfg) o tr = .ok r) ∧
    (∀ tr, ∃ r, kbase_device_term (dev_init cfg) tr = .ok r) ∧
    (∀ i tr, i ≤ (dev_init cfg).length →
      ∃ r, kbase_device_term_partial (dev_init cfg) i tr = .ok r) ∧
    (dev_init cfg).length % UINT_RANGE = (dev_init cfg).length ∧
    (∀ tr, kbase_device_term_partial (dev_init cfg) ((dev_init cfg).length + 1) tr =
      .error (.out_of_range (dev_init cfg).length)) := by
  refine ⟨(dev_init_table_ok cfg).1, ?_, ?_, ?_, ?_, Nat.mod_eq_of_lt (dev_init_length_lt cfg),
    term_partial_loop_past_end _⟩
  · intro i hi
    exact ⟨_, List.getElem?_eq_getElem hi, (dev_init_table_ok cfg).1 _ (List.getElem_mem hi)⟩
  · intro o tr
    rcases first_fail_cases o.init_ret (dev_init cfg).length with hall | ⟨k, hk, hok, hfail⟩
    · exact ⟨_, kbase_device_init_all_ok _ o (dev_init_table_ok cfg) tr hall⟩
    · exact ⟨_, kbase_device_init_first_fail _ o (dev_init_table_ok cfg) tr k hk hok hfail⟩
  · intro tr
    exact ⟨_, kbase_device_term_ok _ tr (dev_init_length_lt cfg)⟩
  · intro i tr hi
    exact ⟨_, kbase_device_term_partial_ok _ i tr hi⟩

/-- C15, the code at the failing input: when every sub-step of `kbase_backend_late_init`
succeeds except `kbase_gpuprops_update_l2_features`, which returns `-EINVAL`, the jump to
`fail_update_l2_features` lands on `fail_devfreq_init`: the teardown calls made are
`kbase_job_slot_term`, `kbase_backend_timer_term`, `kbase_hwaccess_pm_halt`,
`kbase_reset_gpu_term`, `kbase_hwaccess_pm_term`, and `kbase_backend_devfreq_term`, the
counterpart of `kbase_backend_devfreq_init`, which succeeded, is not called. -/
theorem l2_features_failure_skips_devfreq_term :
    kbase_backend_late_init cfg_hw false late_l2_features_fails [] =
      (-22, [BackendCall.kbase_hwaccess_pm_init, BackendCall.kbase_reset_gpu_init,
        BackendCall.kbase_hwaccess_pm_powerup, BackendCall.kbase_backend_timer_init,
        BackendCall.kbase_job_slot_init, BackendCall.kbase_backend_devfreq_init,
        BackendCall.kbase_pm_context_idle, BackendCall.kbase_gpuprops_update_l2_features,
        BackendCall.kbase_job_slot_term, BackendCall.kbase_backend_timer_term,
        BackendCall.kbase_hwaccess_pm_halt, BackendCall.kbase_reset_gpu_term,
        BackendCall.kbase_hwaccess_pm_term]) ∧
    owed_teardown (kbase_backend_late_init cfg_hw false late_l2_features_fails []).2 =
      [BackendCall.kbase_backend_devfreq_term, BackendCall.kbase_job_slot_term,
        BackendCall.kbase_backend_timer_term, BackendCall.kbase_hwaccess_pm_halt,
        BackendCall.kbase_reset_gpu_term, BackendCall.kbase_hwaccess_pm_term] ∧
    BackendCall.kbase_backend_devfreq_term ∉
      (kbase_backend_late_init cfg_hw false late_l2_features_fails []).2 :=
  ⟨rfl, rfl, by decide⟩

/-- C17 (late-term mirrors late-init): `kbase_backend_late_term` always makes the calls
`kbase_backend_devfreq_term`, `kbase_job_slot_halt`, `kbase_job_slot_term`,
`kbase_backend_timer_term`, `kbase_hwaccess_pm_halt`, `kbase_reset_gpu_term`,
`kbase_hwaccess_pm_term`, in this order; and in every build, if `kbase_backend_late_init`
returns 0 then all of `kbase_hwaccess_pm_init`, `kbase_reset_gpu_init`,
`kbase_hwaccess_pm_powerup`, `kbase_backend_timer_init`, `kbase_job_slot_init`,
`kbase_backend_devfreq_init` and `kbase_gpuprops_update_l2_features` returned 0, the
sub-steps with a counterpart were called in the order just listed, and the calls of
`kbase_backend_late_term` without `kbase_job_slot_halt` are their counterparts in reverse
order. -/
theorem late_term_mirrors_late_init (cfg : Config) (CONFIG_MALI_DEBUG : Bool)
    (o : LateOutcomes) (tr : List BackendCall) :
    kbase_backend_late_term tr =
      tr ++ [BackendCall.kbase_backend_devfreq_term, BackendCall.kbase_job_slot_halt,
        BackendCall.kbase_job_slot_term, BackendCall.kbase_backend_timer_term,
        BackendCall.kbase_hwaccess_pm_halt, BackendCall.kbase_reset_gpu_term,
        BackendCall.kbase_hwaccess_pm_term] ∧
    ((kbase_backend_late_init cfg CONFIG_MALI_DEBUG o tr).1 = 0 →
      (o.kbase_hwaccess_pm_init = 0 ∧ o.kbase_reset_gpu_init = 0 ∧
        o.kbase_hwaccess_pm_powerup = 0 ∧ o.kbase_backend_timer_init = 0 ∧
        o.kbase_job_slot_init = 0 ∧ o.kbase_backend_devfreq_init = 0 ∧
        o.kbase_gpuprops_update_l2_features = 0) ∧
      ∃ calls, (kbase_backend_late_init cfg CONFIG_MALI_DEBUG o tr).2 = tr ++ calls ∧
        calls.filter (fun c => c.counterpart.isSome) =
          [BackendCall.kbase_hwaccess_pm_init, BackendCall.kbase_reset_gpu_init,
            BackendCall.kbase_hwaccess_pm_powerup, BackendCall.kbase_backend_timer_init,
            BackendCall.kbase_job_slot_init, BackendCall.kbase_backend_devfreq_init] ∧
        (kbase_backend_late_term []).filter (fun c => c != BackendCall.kbase_job_slot_halt) =
          (calls.filterMap BackendCall.counterpart).reverse) := by
  refine ⟨rfl, fun h => ?_⟩
  obtain ⟨hret, hs⟩ := late_init_success_path cfg CONFIG_MALI_DEBUG o tr h
  refine ⟨hret, _, hs, ?_, ?_⟩
  · by_cases hd : CONFIG_MALI_DEBUG = true ∧ cfg.CONFIG_MALI_NO_MALI = false
    · rw [if_pos hd]
      rfl
    · rw [if_neg hd]
      rfl
  · by_cases hd : CONFIG_MALI_DEBUG = true ∧ cfg.CONFIG_MALI_NO_MALI = false
    · rw [if_pos hd]
      rfl
    · rw [if_neg hd]
      rfl

/-- Witness of C17: in the hardware build with `CONFIG_MALI_DEBUG`, when every sub-step
succeeds `kbase_backend_late_init` returns 0, and the counterparts of its calls, reversed,
are the calls of `kbase_backend_late_term` without `kbase_job_slot_halt`. -/
theorem late_term_mirrors_late_init_witness :
    (kbase_backend_late_init cfg_hw true late_all_ok []).1 = 0 ∧
    ((kbase_backend_late_init cfg_hw true late_all_ok []).2.filterMap
        BackendCall.counterpart).reverse =
      [BackendCall.kbase_backend_devfreq_term, BackendCall.kbase_job_slot_term,
        BackendCall.kbase_backend_timer_term, BackendCall.kbase_hwaccess_pm_halt,
        BackendCall.kbase_reset_gpu_term, BackendCall.kbase_hwaccess_pm_term] := by
  obtain ⟨-, calls, hc, -, hm⟩ :=
    (late_term_mirrors_late_init cfg_hw true late_all_ok []).2 rfl
  refine ⟨rfl, ?_⟩
  rw [hc, List.nil_append, ← hm]
  rfl
